import Mathlib

/-!
# Xelma-Backend: round/prediction settlement engine, shallowly embedded

This file embeds the core of the TevaLabs/Xelma-Backend prediction-market
backend in Lean 4 and proves properties of it:

* the blockchain gateway's error classification and bounded retry loop
  (`src/services/soroban.service.ts`);
* the round state machine: `startRound` with its local-write → remote-write →
  confirm-or-rollback protocol, and `cancelRound` with its refund loop
  (`src/services/round.service.ts`);
* the prediction ledger: `submitPrediction` with balance debit, pool
  increment and rollback-by-delete (`src/services/prediction.service.ts`);
* the settlement engine: `resolveRound` / `resolveUpDownRound` /
  `resolveLegendsRound` (`src/services/resolution.service.ts`).

Modelling conventions:

* The Prisma/PostgreSQL database is a `DB` record of lists of rows; a prisma
  `update` by unique id is a keyed list map, a `create` appends a row, a
  `delete` filters it out.  Database writes are modelled as always
  succeeding; each service call is one step (the code wraps the multi-row
  writes in `prisma.$transaction`, so no intermediate state is observable).
* JavaScript `number` amounts and prices are modelled as exact rationals
  (`ℚ`); timestamps (`Date.getTime()` milliseconds) as rationals as well.
* Remote (Soroban) calls are passed in as an explicit outcome parameter
  `remote : Except BlockchainError String` (the tx hash on success); whether
  the Soroban integration is configured is a `sorobanEnabled : Bool`
  parameter (`sorobanService.isInitialized()` in the code).
* The retry loop's wall-clock timeout check (`Date.now() - startTime >
  config.timeoutMs`) is modelled at zero elapsed time, where it never fires;
  real time, backoff delays and jitter are not modelled.  Logging,
  websocket events and notifications have no effect on the modelled state
  and are omitted.
-/

namespace Xelma

/-- Prisma enum `RoundStatus` (migration: PENDING/ACTIVE/LOCKED/RESOLVED/CANCELLED). -/
inductive RoundStatus
  | PENDING
  | ACTIVE
  | LOCKED
  | RESOLVED
  | CANCELLED
deriving DecidableEq

/-- Prisma enum `GameMode`. -/
inductive GameMode
  | UP_DOWN
  | LEGENDS
deriving DecidableEq

/-- Prisma enum `PredictionSide`. -/
inductive PredictionSide
  | UP
  | DOWN
deriving DecidableEq

/-- Transaction (ledger-entry) types used by the embedded services: a bet is
recorded as `"LOSS"` (provisional, pending resolution) and a refund from a
cancelled round as `"BONUS"`. -/
inductive TxnType
  | LOSS
  | BONUS
deriving DecidableEq

/-- `User` row: the fields read or written by the embedded services. -/
structure User where
  id : Nat
  walletAddress : String
  virtualBalance : ℚ
  wins : Nat
  streak : Nat
deriving DecidableEq

/-- One entry of a LEGENDS round's `priceRanges` JSON column. -/
structure PriceRange where
  min : ℚ
  max : ℚ
  pool : ℚ
deriving DecidableEq

/-- The `priceRange` JSON stored on a LEGENDS prediction ({min, max}). -/
structure PredRange where
  min : ℚ
  max : ℚ
deriving DecidableEq

/-- `Prediction` row.  `won`/`payout` are nullable (`none` until settled). -/
structure Prediction where
  id : Nat
  roundId : Nat
  userId : Nat
  amount : ℚ
  side : Option PredictionSide
  priceRange : Option PredRange
  won : Option Bool
  payout : Option ℚ
deriving DecidableEq

/-- `Round` row. -/
structure Round where
  id : Nat
  mode : GameMode
  status : RoundStatus
  startTime : ℚ
  endTime : ℚ
  startPrice : ℚ
  endPrice : Option ℚ
  sorobanRoundId : Option String
  poolUp : ℚ
  poolDown : ℚ
  priceRanges : Option (List PriceRange)
deriving DecidableEq

/-- `Transaction` row (signed ledger entry). -/
structure Txn where
  userId : Nat
  amount : ℚ
  type : TxnType
  description : String
  roundId : Option Nat
deriving DecidableEq

/-- The database state: lists of rows per table. -/
structure DB where
  users : List User
  rounds : List Round
  predictions : List Prediction
  transactions : List Txn
deriving DecidableEq

/-- `prisma.user.findUnique({ where: { id } })`. -/
def findUser (db : DB) (uid : Nat) : Option User :=
  db.users.find? (fun u => decide (u.id = uid))

/-- `prisma.round.findUnique({ where: { id } })`. -/
def findRound (db : DB) (rid : Nat) : Option Round :=
  db.rounds.find? (fun r => decide (r.id = rid))

/-- `prisma.prediction.findUnique({ where: { id } })`. -/
def findPrediction (db : DB) (pid : Nat) : Option Prediction :=
  db.predictions.find? (fun p => decide (p.id = pid))

/-- `prisma.user.update({ where: { id }, data })`: keyed update by unique id. -/
def updateUser (db : DB) (uid : Nat) (f : User → User) : DB :=
  { db with users := db.users.map (fun u => if u.id = uid then f u else u) }

/-- `prisma.round.update({ where: { id }, data })`. -/
def updateRound (db : DB) (rid : Nat) (f : Round → Round) : DB :=
  { db with rounds := db.rounds.map (fun r => if r.id = rid then f r else r) }

/-- `prisma.prediction.update({ where: { id }, data })`. -/
def updatePrediction (db : DB) (pid : Nat) (f : Prediction → Prediction) : DB :=
  { db with predictions := db.predictions.map (fun p => if p.id = pid then f p else p) }

/-- `prisma.prediction.delete({ where: { id } })`. -/
def deletePrediction (db : DB) (pid : Nat) : DB :=
  { db with predictions := db.predictions.filter (fun p => decide (p.id ≠ pid)) }

/-- `prisma.transaction.create({ data })`. -/
def addTxn (db : DB) (t : Txn) : DB :=
  { db with transactions := db.transactions ++ [t] }

/-- The predictions attached to a round (prisma `include: { predictions }`). -/
def predictionsOf (db : DB) (rid : Nat) : List Prediction :=
  db.predictions.filter (fun p => decide (p.roundId = rid))

/-! ## Blockchain gateway (`soroban.service.ts`) -/

/-- `BlockchainErrorType` enum (soroban.service.ts:7-14). -/
inductive BlockchainErrorType
  | TRANSIENT
  | VALIDATION
  | INSUFFICIENT_FUNDS
  | CONTRACT_ERROR
  | TIMEOUT
  | UNKNOWN
deriving DecidableEq

/-- `BlockchainError`: structured remote-call failure with retry guidance
(soroban.service.ts:19-41).  The optional original error and tx hash are not
modelled. -/
structure BlockchainError where
  type : BlockchainErrorType
  message : String
  retryable : Bool
deriving DecidableEq

/-- A local service failure (`RoundServiceError` / `PredictionServiceError` /
`ResolutionServiceError`): carried code and HTTP status. -/
structure ServiceError where
  code : String
  statusCode : Nat
deriving DecidableEq

/-- A failure surfaced by a service call: either a local `ServiceError` or a
re-thrown `BlockchainError`. -/
inductive AppError
  | service (e : ServiceError)
  | blockchain (e : BlockchainError)
deriving DecidableEq

/-- `as.leadsWith bs`: the list `as` is an initial segment of `bs`. -/
def leadsWith : List Char → List Char → Bool
  | [], _ => true
  | _ :: _, [] => false
  | a :: as, b :: bs => a == b && leadsWith as bs

/-- `needle.occursIn hay` for character lists. -/
def occursIn (needle : List Char) : List Char → Bool
  | [] => leadsWith needle []
  | c :: rest => leadsWith needle (c :: rest) || occursIn needle rest

/-- JavaScript `hay.includes(needle)`. -/
def strIncludes (hay needle : String) : Bool :=
  occursIn needle.toList hay.toList

/-- JavaScript `s.toLowerCase()` (a kernel-computable form of
`String.toLower`: lower-case each character). -/
def toLowerStr (s : String) : String := String.mk (s.toList.map Char.toLower)

/-- `classifyError` (soroban.service.ts:226-289): string-pattern
classification of a raw failure message, ordered exactly as in the source.
Only the TRANSIENT class is retryable. -/
def classifyError (errorMessage operation : String) : BlockchainError :=
  if strIncludes (toLowerStr errorMessage) "timeout" || strIncludes (toLowerStr errorMessage) "econnrefused"
      || strIncludes (toLowerStr errorMessage) "enotfound" || strIncludes (toLowerStr errorMessage) "network" then
    { type := .TRANSIENT
      message := "Network error during " ++ operation ++ ": " ++ errorMessage
      retryable := true }
  else if strIncludes (toLowerStr errorMessage) "insufficient" || strIncludes (toLowerStr errorMessage) "balance"
      || strIncludes (toLowerStr errorMessage) "funds" then
    { type := .INSUFFICIENT_FUNDS
      message := "Insufficient funds for " ++ operation
      retryable := false }
  else if strIncludes (toLowerStr errorMessage) "alreadybet" || strIncludes (toLowerStr errorMessage) "already"
      || strIncludes (toLowerStr errorMessage) "contract" then
    { type := .CONTRACT_ERROR
      message := "Contract error during " ++ operation ++ ": " ++ errorMessage
      retryable := false }
  else if strIncludes (toLowerStr errorMessage) "invalid" || strIncludes (toLowerStr errorMessage) "validation"
      || strIncludes (toLowerStr errorMessage) "parameter" then
    { type := .VALIDATION
      message := "Validation error during " ++ operation ++ ": " ++ errorMessage
      retryable := false }
  else
    { type := .UNKNOWN
      message := "Unknown error during " ++ operation ++ ": " ++ errorMessage
      retryable := false }

/-- `RetryConfig` (soroban.service.ts:46-51). -/
structure RetryConfig where
  maxRetries : Nat
  baseDelayMs : Nat
  maxDelayMs : Nat
  timeoutMs : Nat
deriving DecidableEq

/-- `DEFAULT_RETRY_CONFIG` (soroban.service.ts:56-61). -/
def DEFAULT_RETRY_CONFIG : RetryConfig :=
  { maxRetries := 3, baseDelayMs := 1000, maxDelayMs := 10000, timeoutMs := 30000 }

/-- The body of `retryWithBackoff`'s `for` loop (soroban.service.ts:302-342).
`attempts i` is the raw outcome of the i-th invocation of the wrapped
operation (`.error msg` models a thrown error with that message).  `fuel` is
the number of attempts still allowed (`config.maxRetries - attempt`); the
source throws the classified error when it is not retryable or when
`attempt == config.maxRetries - 1`, i.e. when the remaining fuel after this
attempt is zero.  With zero fuel the loop exits and the source throws
`lastError || UNKNOWN`.  The wall-clock timeout check never fires in this
zero-elapsed-time model; backoff sleeps are not modelled. -/
def retryLoop {α : Type} (attempts : Nat → Except String α) (operationName : String) :
    Nat → Nat → Option BlockchainError → Except BlockchainError α
  | _, 0, lastError =>
    .error (lastError.getD
      { type := .UNKNOWN
        message := "Unexpected error in retry logic for " ++ operationName
        retryable := false })
  | attempt, fuel + 1, _ =>
    match attempts attempt with
    | .ok v => .ok v
    | .error raw =>
      let lastError := classifyError raw operationName
      if !lastError.retryable || fuel = 0 then .error lastError
      else retryLoop attempts operationName (attempt + 1) fuel (some lastError)

/-- `retryWithBackoff` (soroban.service.ts:294-352). -/
def retryWithBackoff {α : Type} (attempts : Nat → Except String α)
    (operationName : String) (config : RetryConfig) : Except BlockchainError α :=
  retryLoop attempts operationName 0 config.maxRetries none

/-- The retry invocation inside `SorobanService.placeBet`
(soroban.service.ts:505-515): user-initiated operations use a smaller budget,
`{ ...DEFAULT_RETRY_CONFIG, maxRetries: 2 }`. -/
def placeBetRetry {α : Type} (attempts : Nat → Except String α) : Except BlockchainError α :=
  retryWithBackoff attempts "placeBet" { DEFAULT_RETRY_CONFIG with maxRetries := 2 }

/-- The retry invocation inside `SorobanService.createRound`
(soroban.service.ts:420-425): default config, 3 attempts. -/
def createRoundRetry {α : Type} (attempts : Nat → Except String α) : Except BlockchainError α :=
  retryWithBackoff attempts "createRound" DEFAULT_RETRY_CONFIG

/-- The retry invocation inside `SorobanService.resolveRound`
(soroban.service.ts:566-570): default config, 3 attempts. -/
def resolveRoundRetry {α : Type} (attempts : Nat → Except String α) : Except BlockchainError α :=
  retryWithBackoff attempts "resolveRound" DEFAULT_RETRY_CONFIG

/-! ## Round state machine (`round.service.ts`) -/

/-- The LEGENDS `priceRanges` built by `startRound` (round.service.ts:87-111).
Unreachable in practice: LEGENDS mode is rejected with 501 before this point. -/
def legendsPriceRanges (startPrice : ℚ) : List PriceRange :=
  let rangeWidth := startPrice * (5 / 100)
  [ { min := startPrice - rangeWidth * 2, max := startPrice - rangeWidth, pool := 0 }
  , { min := startPrice - rangeWidth, max := startPrice, pool := 0 }
  , { min := startPrice, max := startPrice + rangeWidth, pool := 0 }
  , { min := startPrice + rangeWidth, max := startPrice + rangeWidth * 2, pool := 0 }
  , { min := startPrice + rangeWidth * 2, max := startPrice + rangeWidth * 3, pool := 0 } ]

/-- `RoundService.startRound` (round.service.ts:29-264).

Validation order as in the source: start price, duration, LEGENDS check, then
the active-round check — which queries `findFirst({ where: { status: ACTIVE } })`
and therefore does NOT consider PENDING rounds.  A new round is persisted in
PENDING; if the Soroban integration is initialized, the remote
`createRound` outcome is `remote`: on failure the round is rolled back to
CANCELLED (`rollbackRound`, round.service.ts:269-294) and the
`BlockchainError` is re-thrown; otherwise the round is updated to ACTIVE with
the tx hash stored in `sorobanRoundId`.  `nowMs` is `Date.now()`; `newRoundId`
is the id prisma assigns to the created row. -/
def startRound (db : DB) (mode : GameMode) (startPrice durationMinutes : ℚ)
    (nowMs : ℚ) (newRoundId : Nat) (sorobanEnabled : Bool)
    (remote : Except BlockchainError String) : DB × Except AppError Round :=
  if startPrice ≤ 0 then
    (db, .error (.service { code := "INVALID_START_PRICE", statusCode := 400 }))
  else if durationMinutes ≤ 0 ∨ 1440 < durationMinutes then
    (db, .error (.service { code := "INVALID_DURATION", statusCode := 400 }))
  else if mode = .LEGENDS then
    (db, .error (.service { code := "LEGENDS_NOT_IMPLEMENTED", statusCode := 501 }))
  else if (db.rounds.find? (fun r => decide (r.status = .ACTIVE))).isSome then
    (db, .error (.service { code := "ACTIVE_ROUND_EXISTS", statusCode := 409 }))
  else
    let startTime := nowMs
    let endTime := nowMs + durationMinutes * 60 * 1000
    let priceRanges : Option (List PriceRange) :=
      if mode ≠ .UP_DOWN then some (legendsPriceRanges startPrice) else none
    let dbRound : Round :=
      { id := newRoundId, mode := mode, status := .PENDING
        startTime := startTime, endTime := endTime, startPrice := startPrice
        endPrice := none, sorobanRoundId := none
        poolUp := 0, poolDown := 0, priceRanges := priceRanges }
    let db1 : DB := { db with rounds := db.rounds ++ [dbRound] }
    if sorobanEnabled then
      match remote with
      | .error blockchainError =>
        -- rollbackRound: mark the just-created round CANCELLED, re-throw
        (updateRound db1 newRoundId (fun r => { r with status := .CANCELLED }),
          .error (.blockchain blockchainError))
      | .ok txHash =>
        (updateRound db1 newRoundId
            (fun r => { r with status := .ACTIVE, sorobanRoundId := some txHash }),
          .ok { dbRound with status := .ACTIVE, sorobanRoundId := some txHash })
    else
      -- Soroban not initialized: round goes ACTIVE with no tx hash
      (updateRound db1 newRoundId
          (fun r => { r with status := .ACTIVE, sorobanRoundId := none }),
        .ok { dbRound with status := .ACTIVE, sorobanRoundId := none })

/-- `RoundService.lockRound` (round.service.ts:365-402): legal only from ACTIVE. -/
def lockRound (db : DB) (roundId : Nat) : DB × Except ServiceError Unit :=
  match findRound db roundId with
  | none => (db, .error { code := "ROUND_NOT_FOUND", statusCode := 404 })
  | some round =>
    if round.status ≠ .ACTIVE then
      (db, .error { code := "INVALID_ROUND_STATUS", statusCode := 400 })
    else
      (updateRound db roundId (fun r => { r with status := .LOCKED }), .ok ())

/-- The body of `cancelRound`'s refund loop (round.service.ts:558-578): credit
the stake back to the owner's balance and record a `"BONUS"` ledger entry. -/
def cancelRefundStep (roundId : Nat) (reason : String) (db : DB) (p : Prediction) : DB :=
  addTxn
    (updateUser db p.userId
      (fun u => { u with virtualBalance := u.virtualBalance + p.amount }))
    { userId := p.userId, amount := p.amount, type := .BONUS
      description := "Refund from cancelled round: " ++ reason
      roundId := some roundId }

/-- `RoundService.cancelRound` (round.service.ts:528-599): illegal from
RESOLVED/CANCELLED; otherwise, in one transaction, sets the round CANCELLED
and refunds every associated prediction's amount (balance increment plus a
BONUS ledger entry).  The prediction rows and the round's pools are left
untouched. -/
def cancelRound (db : DB) (roundId : Nat) (reason : String) : DB × Except ServiceError Unit :=
  match findRound db roundId with
  | none => (db, .error { code := "ROUND_NOT_FOUND", statusCode := 404 })
  | some round =>
    if round.status = .RESOLVED ∨ round.status = .CANCELLED then
      (db, .error { code := "INVALID_ROUND_STATUS", statusCode := 400 })
    else
      let preds := predictionsOf db roundId
      let db1 := updateRound db roundId (fun r => { r with status := .CANCELLED })
      (preds.foldl (cancelRefundStep roundId reason) db1, .ok ())

/-! ## Prediction ledger (`prediction.service.ts`) -/

/-- The atomic step 3 of `submitPrediction` for UP_DOWN rounds
(prediction.service.ts:213-241): in one `prisma.$transaction`, debit the
user's balance, increment the chosen side's pool, and record a provisional
`"LOSS"` ledger entry of `-amount`. -/
def submitSettleWrites (db : DB) (userId roundId : Nat) (amount : ℚ)
    (side : PredictionSide) : DB :=
  addTxn
    (updateRound
      (updateUser db userId
        (fun u => { u with virtualBalance := u.virtualBalance - amount }))
      roundId
      (fun r =>
        if side = .UP then { r with poolUp := r.poolUp + amount }
        else { r with poolDown := r.poolDown + amount }))
    { userId := userId, amount := -amount, type := .LOSS
      description := "Bet on round", roundId := some roundId }

/-- `PredictionService.submitPrediction` (prediction.service.ts:36-388).

Guards in source order: round exists, round ACTIVE, round not past `endTime`,
no existing (round, user) prediction, user exists, sufficient balance.  For
UP_DOWN rounds: the prediction row is created first; if Soroban is
initialized and a signing credential was supplied, the remote `placeBet`
outcome is `remote` — on failure the just-created row is deleted
(rollback-by-delete, prediction.service.ts:186-201) and the
`BlockchainError` re-thrown; only then does the atomic debit/pool/ledger
transaction run.  For LEGENDS rounds the submitted range must match a stored
range; the debit/ledger transaction runs, then the matching range's pool is
incremented. -/
def submitPrediction (db : DB) (userId roundId : Nat) (amount : ℚ)
    (side : Option PredictionSide) (priceRange : Option PredRange)
    (nowMs : ℚ) (newPredictionId : Nat) (sorobanEnabled hasSecretKey : Bool)
    (remote : Except BlockchainError String) : DB × Except AppError Prediction :=
  match findRound db roundId with
  | none => (db, .error (.service { code := "ROUND_NOT_FOUND", statusCode := 404 }))
  | some round =>
    if round.status ≠ .ACTIVE then
      (db, .error (.service { code := "ROUND_NOT_ACTIVE", statusCode := 400 }))
    else if round.endTime < nowMs then
      (db, .error (.service { code := "ROUND_ENDED", statusCode := 400 }))
    else if (db.predictions.find?
        (fun p => decide (p.roundId = roundId ∧ p.userId = userId))).isSome then
      (db, .error (.service { code := "PREDICTION_EXISTS", statusCode := 409 }))
    else
      match findUser db userId with
      | none => (db, .error (.service { code := "USER_NOT_FOUND", statusCode := 404 }))
      | some user =>
        if user.virtualBalance < amount then
          (db, .error (.service { code := "INSUFFICIENT_BALANCE", statusCode := 400 }))
        else if round.mode = .UP_DOWN then
          match side with
          | none => (db, .error (.service { code := "SIDE_REQUIRED", statusCode := 400 }))
          | some s =>
            let prediction : Prediction :=
              { id := newPredictionId, roundId := roundId, userId := userId
                amount := amount, side := some s, priceRange := none
                won := none, payout := none }
            let db1 : DB := { db with predictions := db.predictions ++ [prediction] }
            if sorobanEnabled && hasSecretKey then
              if user.walletAddress = "" then
                -- WALLET_NOT_CONFIGURED thrown inside the blockchain try:
                -- the catch deletes the row and re-throws
                (deletePrediction db1 newPredictionId,
                  .error (.service { code := "WALLET_NOT_CONFIGURED", statusCode := 400 }))
              else
                match remote with
                | .error blockchainError =>
                  (deletePrediction db1 newPredictionId,
                    .error (.blockchain blockchainError))
                | .ok _txHash =>
                  (submitSettleWrites db1 userId roundId amount s, .ok prediction)
            else
              (submitSettleWrites db1 userId roundId amount s, .ok prediction)
        else
          -- LEGENDS mode (prediction.service.ts:256-335)
          match priceRange with
          | none =>
            (db, .error (.service { code := "PRICE_RANGE_REQUIRED", statusCode := 400 }))
          | some pr =>
            match round.priceRanges with
            | none =>
              -- `round.priceRanges as any[]` is null: the find throws and is
              -- wrapped as PREDICTION_FAILED by the outer catch
              (db, .error (.service { code := "PREDICTION_FAILED", statusCode := 500 }))
            | some ranges =>
              if (ranges.find? (fun r => decide (r.min = pr.min ∧ r.max = pr.max))).isSome then
                let prediction : Prediction :=
                  { id := newPredictionId, roundId := roundId, userId := userId
                    amount := amount, side := none, priceRange := some pr
                    won := none, payout := none }
                let db1 : DB := { db with predictions := db.predictions ++ [prediction] }
                let db2 := addTxn
                  (updateUser db1 userId
                    (fun u => { u with virtualBalance := u.virtualBalance - amount }))
                  { userId := userId, amount := -amount, type := .LOSS
                    description := "LEGENDS bet on round", roundId := some roundId }
                let db3 := updateRound db2 roundId (fun r =>
                  { r with priceRanges := some (ranges.map (fun rg =>
                      if rg.min = pr.min ∧ rg.max = pr.max then
                        { rg with pool := rg.pool + amount }
                      else rg)) })
                (db3, .ok prediction)
              else
                (db, .error (.service { code := "INVALID_PRICE_RANGE", statusCode := 400 }))

/-! ## Settlement engine (`resolution.service.ts`)

The resolution service dispatches on `round.mode === 0` / `round.mode === 1`.
`round.mode` is the Prisma enum `GameMode` (migration: `CREATE TYPE
"GameMode" AS ENUM ('UP_DOWN', 'LEGENDS')`), which the Prisma client
deserializes as the string `"UP_DOWN"` / `"LEGENDS"` — every other service in
the repository compares it against strings (`round.mode === "UP_DOWN"` in
prediction.service.ts:112).  JavaScript strict equality between a string and
a number is `false` without coercion, so we embed the dispatch through an
explicit JS runtime-value comparison rather than silently repairing it. -/

/-- A JavaScript runtime value, as far as the mode dispatch needs. -/
inductive JsVal
  | str (s : String)
  | num (q : ℚ)
deriving DecidableEq

/-- JavaScript `===`: operands of different runtime types are never equal. -/
def jsStrictEq : JsVal → JsVal → Bool
  | .str a, .str b => decide (a = b)
  | .num a, .num b => decide (a = b)
  | _, _ => false

/-- The runtime value of a Prisma `GameMode` field: its string name. -/
def GameMode.jsValue : GameMode → JsVal
  | .UP_DOWN => .str "UP_DOWN"
  | .LEGENDS => .str "LEGENDS"

/-- The body of the tie-refund loop (resolution.service.ts:421-438, also
the out-of-range LEGENDS refund at 563-580): set `won` to null and `payout`
to the stake, and credit the stake back to the owner's balance.  Wins and
streak are not touched. -/
def refundPredictionStep (db : DB) (p : Prediction) : DB :=
  updateUser
    (updatePrediction db p.id (fun q => { q with won := none, payout := some p.amount }))
    p.userId
    (fun u => { u with virtualBalance := u.virtualBalance + p.amount })

/-- The body of the UP_DOWN payout loop (resolution.service.ts:456-539).
A winner gets its stake back plus `(amount / winningPool) * losingPool`
(exact rational arithmetic here), `won := true`, balance credited, wins and
streak incremented; a loser gets `won := false`, `payout := 0`, streak reset
to 0. -/
def settleUpDownStep (winningSide : PredictionSide) (winningPool losingPool : ℚ)
    (db : DB) (p : Prediction) : DB :=
  if p.side = some winningSide then
    let share := p.amount / winningPool * losingPool
    let payout := p.amount + share
    updateUser
      (updatePrediction db p.id (fun q => { q with won := some true, payout := some payout }))
      p.userId
      (fun u => { u with virtualBalance := u.virtualBalance + payout
                         wins := u.wins + 1, streak := u.streak + 1 })
  else
    updateUser
      (updatePrediction db p.id (fun q => { q with won := some false, payout := some 0 }))
      p.userId
      (fun u => { u with streak := 0 })

/-- `ResolutionService.resolveUpDownRound` (resolution.service.ts:409-544).
If the price is unchanged, every prediction of the round is refunded.
Otherwise the winning side is UP iff the price went up; the pools are read
from the round row's `poolUp`/`poolDown` fields; if the winning pool is 0
the function returns with no writes at all (predictions keep `won = null`);
otherwise the payout loop runs over the round's predictions. -/
def resolveUpDownRound (db : DB) (round : Round) (finalPrice : ℚ) : DB :=
  if finalPrice = round.startPrice then
    (predictionsOf db round.id).foldl refundPredictionStep db
  else
    let winningSide : PredictionSide :=
      if round.startPrice < finalPrice then .UP else .DOWN
    let winningPool := if winningSide = .UP then round.poolUp else round.poolDown
    let losingPool := if winningSide = .UP then round.poolDown else round.poolUp
    if winningPool = 0 then db
    else (predictionsOf db round.id).foldl
      (settleUpDownStep winningSide winningPool losingPool) db

/-- The body of the LEGENDS payout loop (resolution.service.ts:599-649):
winner iff the prediction's stored range has the winning range's bounds. -/
def settleLegendsStep (winningRange : PriceRange) (winningPool losingPool : ℚ)
    (db : DB) (p : Prediction) : DB :=
  if p.priceRange = some { min := winningRange.min, max := winningRange.max } then
    let share := p.amount / winningPool * losingPool
    let payout := p.amount + share
    updateUser
      (updatePrediction db p.id (fun q => { q with won := some true, payout := some payout }))
      p.userId
      (fun u => { u with virtualBalance := u.virtualBalance + payout
                         wins := u.wins + 1, streak := u.streak + 1 })
  else
    updateUser
      (updatePrediction db p.id (fun q => { q with won := some false, payout := some 0 }))
      p.userId
      (fun u => { u with streak := 0 })

/-- `ResolutionService.resolveLegendsRound` (resolution.service.ts:550-654):
find the range containing the final price (`min ≤ p < max`); outside all
ranges, refund everyone; a zero winning pool distributes nothing; otherwise
run the payout loop.  A round with no stored ranges would fail before
settling (no writes). -/
def resolveLegendsRound (db : DB) (round : Round) (finalPrice : ℚ) : DB :=
  match round.priceRanges with
  | none => db
  | some priceRanges =>
    match priceRanges.find? (fun range => decide (range.min ≤ finalPrice ∧ finalPrice < range.max)) with
    | none => (predictionsOf db round.id).foldl refundPredictionStep db
    | some winningRange =>
      let totalPool := (priceRanges.map PriceRange.pool).sum
      let winningPool := winningRange.pool
      let losingPool := totalPool - winningPool
      if winningPool = 0 then db
      else (predictionsOf db round.id).foldl
        (settleLegendsStep winningRange winningPool losingPool) db

/-- `ResolutionService.resolveRound` (resolution.service.ts:231-403).

Guards: final price positive; round exists; RESOLVED is rejected as
ALREADY_RESOLVED (never an idempotent no-op); any status other than
ACTIVE/LOCKED is rejected.  Step 1 attempts the remote resolution only when
`round.mode === 0` and Soroban is initialized; a remote failure is caught,
logged and deliberately NOT re-thrown (resolution.service.ts:303-315), so
the caller can only ever see a `ServiceError` from this path.  Step 2
dispatches the database settlement on the same `round.mode === 0/1`
comparisons.  Step 3 marks the round RESOLVED with `endPrice` set and
returns the re-fetched round.  (The educational-tip step only writes the
tip columns, which are not modelled.) -/
def resolveRound (db : DB) (roundId : Nat) (finalPrice : ℚ) (sorobanEnabled : Bool)
    (remote : Except BlockchainError String) : DB × Except ServiceError Round :=
  if finalPrice ≤ 0 then
    (db, .error { code := "INVALID_FINAL_PRICE", statusCode := 400 })
  else
    match findRound db roundId with
    | none => (db, .error { code := "ROUND_NOT_FOUND", statusCode := 404 })
    | some round =>
      if round.status = .RESOLVED then
        (db, .error { code := "ALREADY_RESOLVED", statusCode := 400 })
      else if round.status ≠ .LOCKED ∧ round.status ≠ .ACTIVE then
        (db, .error { code := "INVALID_ROUND_STATUS", statusCode := 400 })
      else
        -- Step 1: best-effort remote resolution; failures are swallowed.
        let _blockchainTxHash : Option String :=
          if jsStrictEq round.mode.jsValue (.num 0) && sorobanEnabled then
            match remote with
            | .ok tx => some tx
            | .error _ => none
          else none
        -- Step 2: mode dispatch (string enum vs number: both tests false)
        let db1 :=
          if jsStrictEq round.mode.jsValue (.num 0) then
            resolveUpDownRound db round finalPrice
          else if jsStrictEq round.mode.jsValue (.num 1) then
            resolveLegendsRound db round finalPrice
          else db
        -- Step 3: mark RESOLVED with the end price
        let db2 := updateRound db1 roundId
          (fun r => { r with status := .RESOLVED, endPrice := some finalPrice })
        match findRound db2 roundId with
        | some updated => (db2, .ok updated)
        | none => (db2, .error { code := "RESOLUTION_FAILED", statusCode := 500 })

/-! ## Wellformedness and derived observations -/

/-- Boolean equality on `Except`, to decide result equalities. -/
def exceptBeq {ε α : Type} [DecidableEq ε] [DecidableEq α] : Except ε α → Except ε α → Bool
  | .ok a, .ok b => decide (a = b)
  | .error a, .error b => decide (a = b)
  | .ok _, .error _ => false
  | .error _, .ok _ => false

instance {ε α : Type} [DecidableEq ε] [DecidableEq α] : DecidableEq (Except ε α) := fun x y =>
  decidable_of_iff (exceptBeq x y = true) (by
    cases x <;> cases y <;> simp [exceptBeq])

/-- User ids are pairwise distinct (primary key). -/
def usersWF (db : DB) : Prop := (db.users.map User.id).Nodup

/-- Prediction ids are pairwise distinct (primary key). -/
def predictionsWF (db : DB) : Prop := (db.predictions.map Prediction.id).Nodup

/-- Sum of the stakes of ALL predictions of a round on a given side. -/
def sideStakeSum (db : DB) (rid : Nat) (s : PredictionSide) : ℚ :=
  ((db.predictions.filter (fun p => decide (p.roundId = rid ∧ p.side = some s))).map
    Prediction.amount).sum

/-- A prediction has been refunded: `cancelRound` records each refund as a
`"BONUS"` ledger entry for the owner on that round. -/
def isRefunded (db : DB) (p : Prediction) : Bool :=
  db.transactions.any
    (fun t => decide (t.type = .BONUS ∧ t.userId = p.userId ∧ t.roundId = some p.roundId))

/-- Sum of the stakes of the round's predictions on a side that have NOT been
refunded. -/
def nonRefundedSideSum (db : DB) (rid : Nat) (s : PredictionSide) : ℚ :=
  ((db.predictions.filter (fun p =>
      decide (p.roundId = rid ∧ p.side = some s) && !(isRefunded db p))).map
    Prediction.amount).sum

/-! ## Lookup lemmas for keyed updates -/

theorem find?_map_update {α : Type} (key : α → Nat) (f : α → α) (k : Nat)
    (hf : ∀ x, key (f x) = key x) (l : List α) :
    (l.map (fun x => if key x = k then f x else x)).find? (fun x => decide (key x = k))
      = (l.find? (fun x => decide (key x = k))).map f := by
  induction l with
  | nil => rfl
  | cons x xs ih =>
    by_cases h : key x = k
    · simp [List.find?_cons, h, hf]
    · simp [List.find?_cons, h, ih]

theorem find?_map_update_ne {α : Type} (key : α → Nat) (f : α → α) (k k' : Nat)
    (hf : ∀ x, key (f x) = key x) (hkk : k' ≠ k) (l : List α) :
    (l.map (fun x => if key x = k then f x else x)).find? (fun x => decide (key x = k'))
      = l.find? (fun x => decide (key x = k')) := by
  induction l with
  | nil => rfl
  | cons x xs ih =>
    by_cases h : key x = k
    · have hx : ¬ key x = k' := by rw [h]; exact fun hh => hkk hh.symm
      have hfx : ¬ key (f x) = k' := by rw [hf]; exact hx
      have hks : ¬ k = k' := fun hh => hkk hh.symm
      simp [List.find?_cons, h, hx, hfx, hks, ih]
    · simp [List.find?_cons, h, ih]

theorem findUser_updateUser (db : DB) (k : Nat) (f : User → User)
    (hf : ∀ u, (f u).id = u.id) (uid : Nat) :
    findUser (updateUser db k f) uid =
      if k = uid then (findUser db uid).map f else findUser db uid := by
  by_cases h : k = uid
  · subst h
    simpa [findUser, updateUser] using find?_map_update User.id f k hf db.users
  · simpa [findUser, updateUser, h] using
      find?_map_update_ne User.id f k uid hf (fun hh => h hh.symm) db.users

theorem findRound_updateRound (db : DB) (k : Nat) (f : Round → Round)
    (hf : ∀ r, (f r).id = r.id) (rid : Nat) :
    findRound (updateRound db k f) rid =
      if k = rid then (findRound db rid).map f else findRound db rid := by
  by_cases h : k = rid
  · subst h
    simpa [findRound, updateRound] using find?_map_update Round.id f k hf db.rounds
  · simpa [findRound, updateRound, h] using
      find?_map_update_ne Round.id f k rid hf (fun hh => h hh.symm) db.rounds

theorem findPrediction_updatePrediction (db : DB) (k : Nat) (f : Prediction → Prediction)
    (hf : ∀ p, (f p).id = p.id) (pid : Nat) :
    findPrediction (updatePrediction db k f) pid =
      if k = pid then (findPrediction db pid).map f else findPrediction db pid := by
  by_cases h : k = pid
  · subst h
    simpa [findPrediction, updatePrediction] using
      find?_map_update Prediction.id f k hf db.predictions
  · simpa [findPrediction, updatePrediction, h] using
      find?_map_update_ne Prediction.id f k pid hf (fun hh => h hh.symm) db.predictions

/-! ## Fold lemmas for the settlement / refund loops -/

theorem foldl_preserves {β : Type} (g : DB → β) (step : DB → Prediction → DB)
    (hstep : ∀ d p, g (step d p) = g d) (l : List Prediction) (db : DB) :
    g (l.foldl step db) = g db := by
  induction l generalizing db with
  | nil => rfl
  | cons p ps ih => rw [List.foldl_cons, ih, hstep]

theorem findPrediction_foldl_frame (step : DB → Prediction → DB)
    (hother : ∀ d p pid, pid ≠ p.id → findPrediction (step d p) pid = findPrediction d pid)
    (l : List Prediction) (db : DB) (pid : Nat) (h : ∀ q ∈ l, q.id ≠ pid) :
    findPrediction (l.foldl step db) pid = findPrediction db pid := by
  induction l generalizing db with
  | nil => rfl
  | cons q qs ih =>
    rw [List.foldl_cons, ih _ (fun x hx => h x (List.mem_cons_of_mem q hx)),
      hother db q pid (fun hh => h q (List.mem_cons_self q qs) hh.symm)]

theorem findPrediction_foldl_set (step : DB → Prediction → DB)
    (val : Prediction → Prediction → Prediction)
    (hself : ∀ d p, findPrediction (step d p) p.id = (findPrediction d p.id).map (val p))
    (hother : ∀ d p pid, pid ≠ p.id → findPrediction (step d p) pid = findPrediction d pid)
    (l : List Prediction) (db : DB) (p : Prediction)
    (hmem : p ∈ l) (hnd : (l.map Prediction.id).Nodup) :
    findPrediction (l.foldl step db) p.id = (findPrediction db p.id).map (val p) := by
  induction l generalizing db with
  | nil => cases hmem
  | cons q qs ih =>
    rw [List.map_cons, List.nodup_cons] at hnd
    rcases List.mem_cons.mp hmem with hpq | hmem'
    · subst hpq
      rw [List.foldl_cons,
        findPrediction_foldl_frame step hother qs (step db p) p.id
          (fun x hx hh => hnd.1 (hh ▸ List.mem_map_of_mem Prediction.id hx)),
        hself]
    · have hne : q.id ≠ p.id := by
        intro hh
        exact hnd.1 (hh ▸ List.mem_map_of_mem Prediction.id hmem')
      rw [List.foldl_cons, ih (step db q) hmem' hnd.2,
        hother db q p.id (fun hh => hne hh.symm)]

theorem findUser_foldl_credit (step : DB → Prediction → DB)
    (hstep : ∀ d p uid, findUser (step d p) uid =
      if p.userId = uid then
        (findUser d uid).map
          (fun u => { u with virtualBalance := u.virtualBalance + p.amount })
      else findUser d uid)
    (l : List Prediction) (db : DB) (uid : Nat) :
    findUser (l.foldl step db) uid = (findUser db uid).map
      (fun u => { u with virtualBalance := u.virtualBalance +
        ((l.filter (fun p => decide (p.userId = uid))).map Prediction.amount).sum }) := by
  induction l generalizing db with
  | nil =>
    cases h : findUser db uid <;> simp [h]
  | cons p ps ih =>
    rw [List.foldl_cons, ih, hstep]
    by_cases h : p.userId = uid
    · cases hu : findUser db uid <;> simp [h, hu, List.filter_cons, add_assoc]
    · cases hu : findUser db uid <;> simp [h, hu, List.filter_cons]

/-! ## Step-function facts -/

theorem findPrediction_updateUser (d : DB) (k : Nat) (f : User → User) (pid : Nat) :
    findPrediction (updateUser d k f) pid = findPrediction d pid := rfl

theorem findPrediction_addTxn (d : DB) (t : Txn) (pid : Nat) :
    findPrediction (addTxn d t) pid = findPrediction d pid := rfl

theorem findPrediction_updateRound (d : DB) (k : Nat) (f : Round → Round) (pid : Nat) :
    findPrediction (updateRound d k f) pid = findPrediction d pid := rfl

theorem findUser_updatePrediction (d : DB) (k : Nat) (f : Prediction → Prediction) (uid : Nat) :
    findUser (updatePrediction d k f) uid = findUser d uid := rfl

theorem findUser_addTxn (d : DB) (t : Txn) (uid : Nat) :
    findUser (addTxn d t) uid = findUser d uid := rfl

theorem findUser_updateRound (d : DB) (k : Nat) (f : Round → Round) (uid : Nat) :
    findUser (updateRound d k f) uid = findUser d uid := rfl

theorem findRound_updateUser (d : DB) (k : Nat) (f : User → User) (rid : Nat) :
    findRound (updateUser d k f) rid = findRound d rid := rfl

theorem findRound_updatePrediction (d : DB) (k : Nat) (f : Prediction → Prediction) (rid : Nat) :
    findRound (updatePrediction d k f) rid = findRound d rid := rfl

theorem findRound_addTxn (d : DB) (t : Txn) (rid : Nat) :
    findRound (addTxn d t) rid = findRound d rid := rfl

/-- The settled value the tie-refund loop writes for a processed prediction. -/
def refundVal (p : Prediction) (q : Prediction) : Prediction :=
  { q with won := none, payout := some p.amount }

/-- The settled value the UP_DOWN payout loop writes for a processed
prediction: winner outcome with the pari-mutuel payout, or loser outcome. -/
def settleVal (ws : PredictionSide) (W L : ℚ) (p : Prediction) (q : Prediction) : Prediction :=
  if p.side = some ws then
    { q with won := some true, payout := some (p.amount + p.amount / W * L) }
  else
    { q with won := some false, payout := some 0 }

theorem refundStep_rounds (d : DB) (p : Prediction) :
    (refundPredictionStep d p).rounds = d.rounds := rfl

theorem refundStep_pred_self (d : DB) (p : Prediction) :
    findPrediction (refundPredictionStep d p) p.id
      = (findPrediction d p.id).map (refundVal p) := by
  unfold refundPredictionStep refundVal
  simp [findPrediction_updateUser, findPrediction_updatePrediction]

theorem refundStep_pred_other (d : DB) (p : Prediction) (pid : Nat) (h : pid ≠ p.id) :
    findPrediction (refundPredictionStep d p) pid = findPrediction d pid := by
  unfold refundPredictionStep
  simp [findPrediction_updateUser, findPrediction_updatePrediction, Ne.symm h]

theorem refundStep_user (d : DB) (p : Prediction) (uid : Nat) :
    findUser (refundPredictionStep d p) uid =
      if p.userId = uid then
        (findUser d uid).map
          (fun u => { u with virtualBalance := u.virtualBalance + p.amount })
      else findUser d uid := by
  unfold refundPredictionStep
  simp [findUser_updateUser, findUser_updatePrediction]

theorem cancelStep_rounds (rid : Nat) (reason : String) (d : DB) (p : Prediction) :
    (cancelRefundStep rid reason d p).rounds = d.rounds := rfl

theorem cancelStep_predictions (rid : Nat) (reason : String) (d : DB) (p : Prediction) :
    (cancelRefundStep rid reason d p).predictions = d.predictions := rfl

theorem cancelStep_user (rid : Nat) (reason : String) (d : DB) (p : Prediction) (uid : Nat) :
    findUser (cancelRefundStep rid reason d p) uid =
      if p.userId = uid then
        (findUser d uid).map
          (fun u => { u with virtualBalance := u.virtualBalance + p.amount })
      else findUser d uid := by
  unfold cancelRefundStep
  simp [findUser_addTxn, findUser_updateUser]

theorem settleStep_rounds (ws : PredictionSide) (W L : ℚ) (d : DB) (p : Prediction) :
    (settleUpDownStep ws W L d p).rounds = d.rounds := by
  unfold settleUpDownStep
  by_cases h : p.side = some ws <;> simp [h, updateUser, updatePrediction]

theorem settleStep_pred_self (ws : PredictionSide) (W L : ℚ) (d : DB) (p : Prediction) :
    findPrediction (settleUpDownStep ws W L d p) p.id
      = (findPrediction d p.id).map (settleVal ws W L p) := by
  unfold settleUpDownStep settleVal
  by_cases h : p.side = some ws <;>
    simp [h, findPrediction_updateUser, findPrediction_updatePrediction]

theorem settleStep_pred_other (ws : PredictionSide) (W L : ℚ) (d : DB) (p : Prediction)
    (pid : Nat) (h : pid ≠ p.id) :
    findPrediction (settleUpDownStep ws W L d p) pid = findPrediction d pid := by
  unfold settleUpDownStep
  by_cases hs : p.side = some ws <;>
    simp [hs, findPrediction_updateUser, findPrediction_updatePrediction, Ne.symm h]

/-! ## Pari-mutuel arithmetic -/

theorem sum_map_payout (l : List ℚ) (W L : ℚ) :
    (l.map (fun a => a + a / W * L)).sum = l.sum * (1 + L / W) := by
  induction l with
  | nil => simp
  | cons a as ih =>
    simp only [List.map_cons, List.sum_cons, ih]
    ring

/-- Over exact rational arithmetic, paying each winner `a + (a / W) * L` sums
to `W + L` when the winners' stakes sum to `W ≠ 0`: the winning stakes come
back and the losing pool is fully distributed. -/
theorem sum_winnerPayouts (l : List ℚ) (W L : ℚ) (hW : W ≠ 0) (hsum : l.sum = W) :
    (l.map (fun a => a + a / W * L)).sum = W + L := by
  rw [sum_map_payout, hsum, mul_add, mul_one, ← mul_div_assoc, mul_div_cancel_left₀ L hW]

/-- Value conservation of the UP_DOWN payout loop: if the winning pool `W`
read from the round row equals the sum of the winning-side stakes, the
payouts assigned by the loop over the winners sum to `W + L`. -/
theorem settleUpDown_conservation (l : List Prediction) (ws : PredictionSide) (W L : ℚ)
    (hW : W ≠ 0)
    (hsum : ((l.filter (fun p => decide (p.side = some ws))).map Prediction.amount).sum = W) :
    ((l.filter (fun p => decide (p.side = some ws))).map
        (fun p => p.amount + p.amount / W * L)).sum = W + L := by
  have h := sum_winnerPayouts
    ((l.filter (fun p => decide (p.side = some ws))).map Prediction.amount) W L hW hsum
  rw [List.map_map] at h
  exact h

/-- When the UP_DOWN payout loop runs over a snapshot with pairwise-distinct
ids, each winning prediction in the snapshot ends with `won = true` and
`payout = amount + amount / W * L` (resolution.service.ts:456-483). -/
theorem settle_fold_winner (l : List Prediction) (db : DB) (ws : PredictionSide) (W L : ℚ)
    (p : Prediction) (hmem : p ∈ l) (hnd : (l.map Prediction.id).Nodup)
    (hside : p.side = some ws) :
    findPrediction (l.foldl (settleUpDownStep ws W L) db) p.id
      = (findPrediction db p.id).map
          (fun q => { q with
                      won := some true
                      payout := some (p.amount + p.amount / W * L) }) := by
  rw [findPrediction_foldl_set (settleUpDownStep ws W L) (settleVal ws W L)
    (settleStep_pred_self ws W L) (settleStep_pred_other ws W L) l db p hmem hnd]
  unfold settleVal
  simp only [hside, ite_true]

/-! ## Structural helpers -/

theorem find?_append_right {α : Type} (p : α → Bool) (l : List α) (x : α)
    (hl : ∀ y ∈ l, ¬ p y = true) (hx : p x = true) :
    (l ++ [x]).find? p = some x := by
  rw [List.find?_append, List.find?_eq_none.mpr hl]
  simp [List.find?_cons_of_pos _ hx]

theorem deletePrediction_append_fresh (db : DB) (p0 : Prediction)
    (hfresh : ∀ p ∈ db.predictions, p.id ≠ p0.id) :
    deletePrediction { db with predictions := db.predictions ++ [p0] } p0.id = db := by
  unfold deletePrediction
  have h1 : db.predictions.filter (fun p => decide (p.id ≠ p0.id)) = db.predictions :=
    List.filter_eq_self.mpr (fun p hp => by simp [hfresh p hp])
  have h2 : [p0].filter (fun p => decide (p.id ≠ p0.id)) = [] := by simp
  simp only [List.filter_append, h1, h2, List.append_nil]

theorem map_update_append_fresh (l : List Round) (r0 : Round) (f : Round → Round) (k : Nat)
    (hk : r0.id = k) (hfresh : ∀ r ∈ l, r.id ≠ k) :
    (l ++ [r0]).map (fun r => if r.id = k then f r else r) = l ++ [f r0] := by
  rw [List.map_append]
  congr 1
  · conv_rhs => rw [← List.map_id l]
    exact List.map_congr_left (fun r hr => by simp [hfresh r hr])
  · simp [hk]

theorem submitSettleWrites_predictions (db : DB) (uid rid : Nat) (a : ℚ) (s : PredictionSide) :
    (submitSettleWrites db uid rid a s).predictions = db.predictions := by
  unfold submitSettleWrites
  by_cases h : s = .UP <;> simp [h, addTxn, updateRound, updateUser]

theorem findUser_submitSettleWrites (db : DB) (uid rid : Nat) (a : ℚ) (s : PredictionSide)
    (uid2 : Nat) :
    findUser (submitSettleWrites db uid rid a s) uid2 =
      if uid = uid2 then
        (findUser db uid2).map (fun u => { u with virtualBalance := u.virtualBalance - a })
      else findUser db uid2 := by
  unfold submitSettleWrites
  rw [findUser_addTxn, findUser_updateRound, findUser_updateUser]
  simp

theorem findRound_submitSettleWrites (db : DB) (uid rid : Nat) (a : ℚ) (s : PredictionSide)
    (rid2 : Nat) :
    findRound (submitSettleWrites db uid rid a s) rid2 =
      if rid = rid2 then
        (findRound db rid2).map (fun r =>
          if s = .UP then { r with poolUp := r.poolUp + a }
          else { r with poolDown := r.poolDown + a })
      else findRound db rid2 := by
  unfold submitSettleWrites
  by_cases h : s = .UP <;>
    simp [h, findRound_addTxn, findRound_updateRound, findRound_updateUser]

theorem sideStakeSum_append (db : DB) (rid : Nat) (s : PredictionSide) (p0 : Prediction) :
    sideStakeSum { db with predictions := db.predictions ++ [p0] } rid s
      = sideStakeSum db rid s
        + (if p0.roundId = rid ∧ p0.side = some s then p0.amount else 0) := by
  unfold sideStakeSum
  rw [List.filter_append]
  by_cases h : p0.roundId = rid ∧ p0.side = some s <;>
    simp [h, List.sum_append]

/-! ## Gateway retry lemmas -/

/-- A classified failure is retryable exactly when it is TRANSIENT
(soroban.service.ts:226-289: every other branch sets `retryable = false`). -/
theorem classifyError_retryable_iff (m op : String) :
    (classifyError m op).retryable = true ↔ (classifyError m op).type = .TRANSIENT := by
  unfold classifyError
  split
  · simp
  · split
    · simp
    · split
      · simp
      · split <;> simp

theorem retryLoop_succ {α : Type} (attempts : Nat → Except String α) (op : String)
    (start fuel : Nat) (le : Option BlockchainError) :
    retryLoop attempts op start (fuel + 1) le
      = match attempts start with
        | .ok v => .ok v
        | .error raw =>
          let lastError := classifyError raw op
          if !lastError.retryable || fuel = 0 then .error lastError
          else retryLoop attempts op (start + 1) fuel (some lastError) := rfl

theorem retryLoop_fail_fast {α : Type} (attempts : Nat → Except String α) (op : String)
    (start fuel : Nat) (le : Option BlockchainError) (msg : String)
    (herr : attempts start = .error msg)
    (hnr : (classifyError msg op).retryable = false) :
    retryLoop attempts op start (fuel + 1) le = .error (classifyError msg op) := by
  rw [retryLoop_succ, herr]
  simp [hnr]

theorem retryLoop_retryable_step {α : Type} (attempts : Nat → Except String α) (op : String)
    (start fuel : Nat) (le : Option BlockchainError) (msg : String)
    (herr : attempts start = .error msg)
    (hr : (classifyError msg op).retryable = true) (hfuel : fuel ≠ 0) :
    retryLoop attempts op start (fuel + 1) le
      = retryLoop attempts op (start + 1) fuel (some (classifyError msg op)) := by
  rw [retryLoop_succ, herr]
  simp [hr, hfuel]

theorem retryLoop_last_attempt_fails {α : Type} (attempts : Nat → Except String α) (op : String)
    (start : Nat) (le : Option BlockchainError) (msg : String)
    (herr : attempts start = .error msg) :
    retryLoop attempts op start 1 le = .error (classifyError msg op) := by
  rw [show (1 : Nat) = 0 + 1 from rfl, retryLoop_succ, herr]
  simp

theorem retryLoop_first_ok {α : Type} (attempts : Nat → Except String α) (op : String)
    (start fuel : Nat) (le : Option BlockchainError) (v : α)
    (hok : attempts start = .ok v) :
    retryLoop attempts op start (fuel + 1) le = .ok v := by
  rw [retryLoop_succ, hok]

/-! ## Claim C7 -/

/-- Claim C7: for every gateway call, only failures classified retryable
(TRANSIENT) are ever retried; a non-retryable failure (e.g.
INSUFFICIENT_FUNDS, VALIDATION, CONTRACT_ERROR) is returned to the caller on
the first attempt with no further attempts (the result is fully determined by
attempt 0, as the unconstrained later attempts show); bet placement uses a
budget of 2 attempts (the third attempt of `attemptsB` is never consulted)
while createRound and resolveRound use 3; and retryable failures followed by
a success within the budget return that success with no caller-visible
error. -/
theorem c7_gateway_retry_discipline {α : Type}
    (attempts attemptsB attemptsS : Nat → Except String α)
    (msg m0 m1 : String) (v : α)
    (hfail : attempts 0 = .error msg)
    (hnrP : (classifyError msg "placeBet").retryable = false)
    (hnrC : (classifyError msg "createRound").retryable = false)
    (hB0 : attemptsB 0 = .error m0)
    (hB1 : attemptsB 1 = .error m1)
    (hrB0 : (classifyError m0 "placeBet").retryable = true)
    (_hrB1 : (classifyError m1 "placeBet").retryable = true)
    (hS0 : attemptsS 0 = .error m0)
    (hS1 : attemptsS 1 = .error m1)
    (hS2 : attemptsS 2 = .ok v)
    (hrS0c : (classifyError m0 "createRound").retryable = true)
    (hrS1c : (classifyError m1 "createRound").retryable = true)
    (hrS0r : (classifyError m0 "resolveRound").retryable = true)
    (hrS1r : (classifyError m1 "resolveRound").retryable = true) :
    placeBetRetry attempts = .error (classifyError msg "placeBet")
    ∧ createRoundRetry attempts = .error (classifyError msg "createRound")
    ∧ (classifyError "insufficient funds" "placeBet").retryable = false
    ∧ (classifyError "insufficient funds" "placeBet").type = .INSUFFICIENT_FUNDS
    ∧ placeBetRetry attemptsB = .error (classifyError m1 "placeBet")
    ∧ createRoundRetry attemptsS = .ok v
    ∧ resolveRoundRetry attemptsS = .ok v := by
  refine ⟨?_, ?_, by decide, by decide, ?_, ?_, ?_⟩
  · show retryLoop attempts "placeBet" 0 (1 + 1) none = _
    exact retryLoop_fail_fast attempts "placeBet" 0 1 none msg hfail hnrP
  · show retryLoop attempts "createRound" 0 (2 + 1) none = _
    exact retryLoop_fail_fast attempts "createRound" 0 2 none msg hfail hnrC
  · show retryLoop attemptsB "placeBet" 0 (1 + 1) none = _
    rw [retryLoop_retryable_step attemptsB "placeBet" 0 1 none m0 hB0 hrB0 (by decide)]
    exact retryLoop_last_attempt_fails attemptsB "placeBet" 1 _ m1 hB1
  · show retryLoop attemptsS "createRound" 0 (2 + 1) none = .ok v
    rw [retryLoop_retryable_step attemptsS "createRound" 0 2 none m0 hS0 hrS0c (by decide)]
    show retryLoop attemptsS "createRound" 1 (1 + 1) (some (classifyError m0 "createRound")) = .ok v
    rw [retryLoop_retryable_step attemptsS "createRound" 1 1 _ m1 hS1 hrS1c (by decide)]
    show retryLoop attemptsS "createRound" 2 (0 + 1) (some (classifyError m1 "createRound")) = .ok v
    exact retryLoop_first_ok attemptsS "createRound" 2 0 _ v hS2
  · show retryLoop attemptsS "resolveRound" 0 (2 + 1) none = .ok v
    rw [retryLoop_retryable_step attemptsS "resolveRound" 0 2 none m0 hS0 hrS0r (by decide)]
    show retryLoop attemptsS "resolveRound" 1 (1 + 1) (some (classifyError m0 "resolveRound")) = .ok v
    rw [retryLoop_retryable_step attemptsS "resolveRound" 1 1 _ m1 hS1 hrS1r (by decide)]
    show retryLoop attemptsS "resolveRound" 2 (0 + 1) (some (classifyError m1 "resolveRound")) = .ok v
    exact retryLoop_first_ok attemptsS "resolveRound" 2 0 _ v hS2

/-- Witness for C7: a VALIDATION-shaped message fails fast on attempt 1; two
TRANSIENT-shaped failures exhaust placeBet's 2-attempt budget but are
followed by a success within createRound/resolveRound's 3-attempt budget. -/
theorem c7_gateway_retry_discipline_witness :
    placeBetRetry (fun _ => (.error "invalid parameter" : Except String String))
        = .error (classifyError "invalid parameter" "placeBet")
    ∧ createRoundRetry (fun _ => (.error "invalid parameter" : Except String String))
        = .error (classifyError "invalid parameter" "createRound")
    ∧ (classifyError "insufficient funds" "placeBet").retryable = false
    ∧ (classifyError "insufficient funds" "placeBet").type = .INSUFFICIENT_FUNDS
    ∧ placeBetRetry (fun n => if n = 0 then .error "timeout"
          else if n = 1 then .error "network down" else (.ok "tx" : Except String String))
        = .error (classifyError "network down" "placeBet")
    ∧ createRoundRetry (fun n => if n = 0 then .error "timeout"
          else if n = 1 then .error "network down" else (.ok "tx" : Except String String)) = .ok "tx"
    ∧ resolveRoundRetry (fun n => if n = 0 then .error "timeout"
          else if n = 1 then .error "network down" else (.ok "tx" : Except String String)) = .ok "tx" :=
  c7_gateway_retry_discipline
    (fun _ => .error "invalid parameter")
    (fun n => if n = 0 then .error "timeout"
      else if n = 1 then .error "network down" else .ok "tx")
    (fun n => if n = 0 then .error "timeout"
      else if n = 1 then .error "network down" else .ok "tx")
    "invalid parameter" "timeout" "network down" "tx"
    rfl (by decide) (by decide) rfl rfl (by decide) (by decide)
    rfl rfl rfl (by decide) (by decide) (by decide) (by decide)

/-! ## Concrete scenarios -/

/-- Spec end-to-end scenario: user A (id 1) staked 100 UP and user B (id 2)
staked 150 DOWN on UP_DOWN round 1 with start price 1; the stakes are
already debited (A: 900, B: 850) and the pools are 100/150. -/
def scenarioUserA : User :=
  { id := 1, walletAddress := "GA", virtualBalance := 900, wins := 0, streak := 0 }

def scenarioUserB : User :=
  { id := 2, walletAddress := "GB", virtualBalance := 850, wins := 0, streak := 0 }

def scenarioRound : Round :=
  { id := 1, mode := .UP_DOWN, status := .LOCKED, startTime := 0, endTime := 300000
    startPrice := 1, endPrice := none, sorobanRoundId := none
    poolUp := 100, poolDown := 150, priceRanges := none }

def scenarioPredA : Prediction :=
  { id := 1, roundId := 1, userId := 1, amount := 100, side := some .UP
    priceRange := none, won := none, payout := none }

def scenarioPredB : Prediction :=
  { id := 2, roundId := 1, userId := 2, amount := 150, side := some .DOWN
    priceRange := none, won := none, payout := none }

def scenarioDB : DB :=
  { users := [scenarioUserA, scenarioUserB], rounds := [scenarioRound]
    predictions := [scenarioPredA, scenarioPredB], transactions := [] }

/-! ## Claim C1 -/

/-- Claim C1 (code-bug evidence): resolving the end-to-end scenario at final
price 6/5 > 1 through `resolveRound` marks the round RESOLVED with the end
price set but leaves the winning prediction's payout null, the winner's
balance and win count untouched — the `round.mode === 0` dispatch compares
the Prisma string enum against a number and never fires.  The cited payout
loop itself (`resolveUpDownRound`), run directly on the same state, pays A
exactly 100 + (100 / 100) * 150 = 250 (stake plus the whole losing pool,
conserving value: 250 = 100 + 150) and records the loser's zero payout,
exactly as the claim demands of resolution. -/
theorem c1_resolution_never_pays :
    (let db' := (resolveRound scenarioDB 1 (6 / 5) true (.ok "tx")).1
     (findPrediction db' 1).map Prediction.payout = some none
     ∧ (findUser db' 1).map User.virtualBalance = some 900
     ∧ (findUser db' 1).map User.wins = some 0
     ∧ (findRound db' 1).map Round.status = some .RESOLVED
     ∧ (findRound db' 1).map Round.endPrice = some (some (6 / 5)))
    ∧ (let db' := resolveUpDownRound scenarioDB scenarioRound (6 / 5)
     (findPrediction db' 1).map Prediction.payout = some (some 250)
     ∧ (findPrediction db' 1).map Prediction.won = some (some true)
     ∧ (findUser db' 1).map User.virtualBalance = some 1150
     ∧ (findUser db' 1).map User.wins = some 1
     ∧ (findUser db' 1).map User.streak = some 1
     ∧ (findPrediction db' 2).map Prediction.payout = some (some 0)
     ∧ (findPrediction db' 2).map Prediction.won = some (some false)
     ∧ (findUser db' 2).map User.virtualBalance = some 850
     ∧ (findUser db' 2).map User.streak = some 0
     ∧ (250 : ℚ) = 100 + 100 / 100 * 150
     ∧ (250 : ℚ) = 100 + 150) := by
  constructor
  · norm_num [resolveRound, findRound, findUser, findPrediction, updateRound,
      jsStrictEq, GameMode.jsValue, scenarioDB, scenarioRound, scenarioUserA,
      scenarioUserB, scenarioPredA, scenarioPredB, List.find?]
  · norm_num [resolveUpDownRound, predictionsOf, settleUpDownStep,
      refundPredictionStep, updateUser, updatePrediction, findRound, findUser,
      findPrediction, scenarioDB, scenarioRound, scenarioUserA, scenarioUserB,
      scenarioPredA, scenarioPredB, List.find?, List.filter, List.foldl]

/-! ## Claim C6 -/

/-- Claim C6 (code-bug evidence): resolving the end-to-end scenario at final
price exactly equal to the start price through `resolveRound` refunds
nobody — payouts stay null and balances unchanged, while the round still
reaches RESOLVED — because the string-enum-vs-number mode dispatch never
invokes the settlement.  The cited tie branch of `resolveUpDownRound`, run
directly, refunds every prediction in full exactly as the claim states:
payout = stake, outcome null, each owner's balance up by exactly the stake,
wins untouched. -/
theorem c6_tie_refund_never_runs :
    (let db' := (resolveRound scenarioDB 1 1 true (.ok "tx")).1
     (findPrediction db' 1).map Prediction.payout = some none
     ∧ (findPrediction db' 2).map Prediction.payout = some none
     ∧ (findUser db' 1).map User.virtualBalance = some 900
     ∧ (findUser db' 2).map User.virtualBalance = some 850
     ∧ (findRound db' 1).map Round.status = some .RESOLVED)
    ∧ (let db' := resolveUpDownRound scenarioDB scenarioRound 1
     (findPrediction db' 1).map Prediction.won = some none
     ∧ (findPrediction db' 1).map Prediction.payout = some (some 100)
     ∧ (findPrediction db' 2).map Prediction.won = some none
     ∧ (findPrediction db' 2).map Prediction.payout = some (some 150)
     ∧ (findUser db' 1).map User.virtualBalance = some 1000
     ∧ (findUser db' 2).map User.virtualBalance = some 1000
     ∧ (findUser db' 1).map User.wins = some 0
     ∧ (findUser db' 2).map User.wins = some 0) := by
  constructor
  · norm_num [resolveRound, findRound, findUser, findPrediction, updateRound,
      jsStrictEq, GameMode.jsValue, scenarioDB, scenarioRound, scenarioUserA,
      scenarioUserB, scenarioPredA, scenarioPredB, List.find?]
  · norm_num [resolveUpDownRound, predictionsOf, settleUpDownStep,
      refundPredictionStep, updateUser, updatePrediction, findRound, findUser,
      findPrediction, scenarioDB, scenarioRound, scenarioUserA, scenarioUserB,
      scenarioPredA, scenarioPredB, List.find?, List.filter, List.foldl]

/-! ## Claim C5 -/

/-- All stakes on the losing side: one user staked 100 DOWN on round 1,
price goes up (winning pool `poolUp` = 0). -/
def zeroWinnerRound : Round :=
  { id := 1, mode := .UP_DOWN, status := .LOCKED, startTime := 0, endTime := 300000
    startPrice := 1, endPrice := none, sorobanRoundId := none
    poolUp := 0, poolDown := 100, priceRanges := none }

def zeroWinnerDB : DB :=
  { users := [{ id := 1, walletAddress := "GA", virtualBalance := 900, wins := 0, streak := 0 }]
    rounds := [zeroWinnerRound]
    predictions := [{ id := 1, roundId := 1, userId := 1, amount := 100, side := some .DOWN
                      priceRange := none, won := none, payout := none }]
    transactions := [] }

/-- Counterexample to claim C5: resolving the all-losers round at final price
2 > 1 reaches RESOLVED with no balance change, but the prediction's outcome
is NOT set to false — it stays null, both through `resolveRound` and in the
cited winning-pool-zero branch of `resolveUpDownRound`, which returns
without touching any row. -/
theorem c5_counterexample :
    (let db' := (resolveRound zeroWinnerDB 1 2 true (.ok "tx")).1
     (findRound db' 1).map Round.status = some .RESOLVED
     ∧ (findRound db' 1).map Round.endPrice = some (some 2)
     ∧ (findUser db' 1).map User.virtualBalance = some 900
     ∧ (findPrediction db' 1).map Prediction.won = some none
     ∧ ¬ (findPrediction db' 1).map Prediction.won = some (some false))
    ∧ resolveUpDownRound zeroWinnerDB zeroWinnerRound 2 = zeroWinnerDB := by
  constructor
  · norm_num [resolveRound, findRound, findUser, findPrediction, updateRound,
      jsStrictEq, GameMode.jsValue, zeroWinnerDB, zeroWinnerRound, List.find?]
    decide
  · norm_num [resolveUpDownRound, zeroWinnerDB, zeroWinnerRound]

/-! ## Claim C2 -/

/-- A database whose only round is PENDING (e.g. left over from a crashed
`startRound` between the insert and the rollback). -/
def pendingOnlyDB : DB :=
  { users := []
    rounds := [{ id := 1, mode := .UP_DOWN, status := .PENDING, startTime := 0
                 endTime := 300000, startPrice := 1, endPrice := none
                 sorobanRoundId := none, poolUp := 0, poolDown := 0, priceRanges := none }]
    predictions := [], transactions := [] }

/-- Counterexample to claim C2: with a PENDING round present and valid
inputs, `startRound` succeeds — its guard queries only status ACTIVE — so
"succeeds iff no round is PENDING or ACTIVE" is false; afterwards two rounds
are PENDING-or-ACTIVE at once, refuting the claimed invariant as well. -/
theorem c2_counterexample :
    (startRound pendingOnlyDB .UP_DOWN 1 5 0 2 false (.ok "tx")).2.isOk = true
    ∧ pendingOnlyDB.rounds.any (fun r => decide (r.status = .PENDING ∨ r.status = .ACTIVE)) = true
    ∧ ((startRound pendingOnlyDB .UP_DOWN 1 5 0 2 false (.ok "tx")).1.rounds.filter
        (fun r => decide (r.status = .PENDING ∨ r.status = .ACTIVE))).length = 2 := by
  norm_num [startRound, updateRound, legendsPriceRanges, pendingOnlyDB,
    List.find?, List.filter]
  decide

/-! ## Claim C8 -/

/-- One user staked 100 UP on an ACTIVE round; the stake is debited
(balance 900), the pool is 100, and the bet's ledger entry is recorded. -/
def cancelScenarioDB : DB :=
  { users := [{ id := 1, walletAddress := "GA", virtualBalance := 900, wins := 0, streak := 0 }]
    rounds := [{ id := 1, mode := .UP_DOWN, status := .ACTIVE, startTime := 0
                 endTime := 300000, startPrice := 1, endPrice := none
                 sorobanRoundId := none, poolUp := 100, poolDown := 0, priceRanges := none }]
    predictions := [{ id := 1, roundId := 1, userId := 1, amount := 100, side := some .UP
                      priceRange := none, won := none, payout := none }]
    transactions := [{ userId := 1, amount := -100, type := .LOSS
                       description := "Bet on round", roundId := some 1 }] }

/-- Counterexample to claim C8: after `cancelRound` refunds the only
prediction (the user's balance is back to 1000 and a BONUS refund ledger
entry exists for it, so every prediction of the round is refunded), the
round's `poolUp` is still 100 while the sum of non-refunded UP stakes is
0 — `cancelRound` never decrements the pools, so the pool totals do NOT
equal the sum of non-refunded prediction amounts. -/
theorem c8_counterexample :
    (let out := cancelRound cancelScenarioDB 1 "test"
     out.2.isOk = true
     ∧ (findUser out.1 1).map User.virtualBalance = some 1000
     ∧ (out.1.predictions.all (fun p => isRefunded out.1 p)) = true
     ∧ (findRound out.1 1).map Round.poolUp = some 100
     ∧ nonRefundedSideSum out.1 1 .UP = 0
     ∧ ¬ (findRound out.1 1).map Round.poolUp = some (nonRefundedSideSum out.1 1 .UP)) := by
  norm_num [cancelRound, cancelRefundStep, predictionsOf, updateRound, updateUser,
    addTxn, findRound, findUser, isRefunded, nonRefundedSideSum, cancelScenarioDB,
    List.find?, List.filter, List.foldl, List.all, List.any]
  decide

/-- A sample transient remote failure, used by witnesses. -/
def sampleTransientError : BlockchainError :=
  { type := .TRANSIENT, message := "network", retryable := true }

theorem updateRound_users (d : DB) (k : Nat) (f : Round → Round) :
    (updateRound d k f).users = d.users := rfl

theorem updateRound_predictions (d : DB) (k : Nat) (f : Round → Round) :
    (updateRound d k f).predictions = d.predictions := rfl

/-! ## Claim C9 -/

/-- Claim C9: the outcome of `resolveRound` — returned value and database
alike — is identical whatever the remote `resolveRound` gateway call does:
a remote failure is swallowed (resolution.service.ts:303-315 catches and
does not re-throw) and resolution proceeds exactly as on remote success,
still reaching RESOLVED with the end price set.  The result type
`Except ServiceError Round` shows the caller can never see a
`BlockchainError` from this path. -/
theorem c9_remote_resolution_failure_swallowed (db : DB) (roundId : Nat) (finalPrice : ℚ)
    (enabled : Bool) (remote remote2 : Except BlockchainError String)
    (e : BlockchainError) (round : Round)
    (hfp : 0 < finalPrice)
    (hround : findRound db roundId = some round)
    (hmode : round.mode = .UP_DOWN)
    (hstatus : round.status = .ACTIVE ∨ round.status = .LOCKED) :
    resolveRound db roundId finalPrice enabled remote
      = resolveRound db roundId finalPrice enabled remote2
    ∧ (let out := resolveRound db roundId finalPrice enabled (.error e)
       out.2.isOk = true
       ∧ (findRound out.1 roundId).map Round.status = some .RESOLVED
       ∧ (findRound out.1 roundId).map Round.endPrice = some (some finalPrice)) := by
  have hns : ¬ finalPrice ≤ 0 := not_le.mpr hfp
  constructor
  · rfl
  · rcases hstatus with h | h <;>
      simp [resolveRound, hns, hround, h, hmode, GameMode.jsValue, jsStrictEq,
        findRound_updateRound, Except.isOk, Except.toBool]

/-- Witness for C9 at the end-to-end scenario with a failing remote leg. -/
theorem c9_remote_resolution_failure_swallowed_witness :
    resolveRound scenarioDB 1 (6 / 5) true (.ok "tx")
      = resolveRound scenarioDB 1 (6 / 5) true (.error sampleTransientError)
    ∧ (let out := resolveRound scenarioDB 1 (6 / 5) true (.error sampleTransientError)
       out.2.isOk = true
       ∧ (findRound out.1 1).map Round.status = some .RESOLVED
       ∧ (findRound out.1 1).map Round.endPrice = some (some (6 / 5))) :=
  c9_remote_resolution_failure_swallowed scenarioDB 1 (6 / 5) true (.ok "tx")
    (.error sampleTransientError) sampleTransientError scenarioRound
    (by norm_num) rfl rfl (Or.inr rfl)

/-! ## Claim C5 (amended) -/

/-- Claim C5 as amended: when every stake of an UP_DOWN round sits on the
losing side (the winning-side pool field is 0) and the final price differs
from the start price, resolution completes with NO row of any prediction or
user touched — outcomes are left null, not set to false — and the round
still reaches RESOLVED with its end price set: the cited
winning-pool-zero branch of `resolveUpDownRound` returns the state
unchanged, and `resolveRound` then only updates the round row. -/
theorem c5_zero_winner_amended (db : DB) (roundId : Nat) (finalPrice : ℚ) (round : Round)
    (hfp : 0 < finalPrice)
    (hround : findRound db roundId = some round)
    (hmode : round.mode = .UP_DOWN)
    (hstatus : round.status = .ACTIVE ∨ round.status = .LOCKED)
    (hne : ¬ finalPrice = round.startPrice)
    (hwin : (if round.startPrice < finalPrice then round.poolUp else round.poolDown) = 0) :
    resolveUpDownRound db round finalPrice = db
    ∧ (let out := resolveRound db roundId finalPrice false (.ok "")
       out.2.isOk = true
       ∧ out.1.users = db.users
       ∧ out.1.predictions = db.predictions
       ∧ (findRound out.1 roundId).map Round.status = some .RESOLVED
       ∧ (findRound out.1 roundId).map Round.endPrice = some (some finalPrice)) := by
  have hns : ¬ finalPrice ≤ 0 := not_le.mpr hfp
  constructor
  · unfold resolveUpDownRound
    rw [if_neg hne]
    by_cases hup : round.startPrice < finalPrice
    · rw [if_pos hup] at hwin
      simp [hup, hwin]
    · rw [if_neg hup] at hwin
      simp [hup, hwin]
  · rcases hstatus with h | h <;>
      simp [resolveRound, hns, hround, h, hmode, GameMode.jsValue, jsStrictEq,
        findRound_updateRound, updateRound_users, updateRound_predictions, Except.isOk, Except.toBool]

/-- Witness for the amended C5 at the all-losers scenario. -/
theorem c5_zero_winner_amended_witness :
    resolveUpDownRound zeroWinnerDB zeroWinnerRound 2 = zeroWinnerDB
    ∧ (let out := resolveRound zeroWinnerDB 1 2 false (.ok "")
       out.2.isOk = true
       ∧ out.1.users = zeroWinnerDB.users
       ∧ out.1.predictions = zeroWinnerDB.predictions
       ∧ (findRound out.1 1).map Round.status = some .RESOLVED
       ∧ (findRound out.1 1).map Round.endPrice = some (some 2)) :=
  c5_zero_winner_amended zeroWinnerDB 1 2 zeroWinnerRound
    (by norm_num) rfl rfl (Or.inr rfl) (by norm_num [zeroWinnerRound])
    (by norm_num [zeroWinnerRound])

/-! ## Claim C10 -/

/-- Claim C10: both refund paths — the tie branch of `resolveUpDownRound`
(finalPrice = startPrice) and `cancelRound` — leave every user's `wins` and
`streak` counters exactly as they were and change the balance by exactly the
sum of that user's stakes on the round (the single stake, given the
(roundId, userId) uniqueness constraint); only the balance and the
prediction/ledger rows are mutated. -/
theorem c10_refunds_preserve_wins_and_streak (db : DB) (roundId : Nat) (reason : String)
    (finalPrice : ℚ) (round : Round) (uid : Nat) (u : User)
    (hround : findRound db roundId = some round)
    (hfp : finalPrice = round.startPrice)
    (hcancellable : ¬ (round.status = .RESOLVED ∨ round.status = .CANCELLED))
    (hu : findUser db uid = some u) :
    (let db' := resolveUpDownRound db round finalPrice
     (findUser db' uid).map User.wins = some u.wins
     ∧ (findUser db' uid).map User.streak = some u.streak
     ∧ (findUser db' uid).map User.virtualBalance
         = some (u.virtualBalance
             + (((predictionsOf db round.id).filter
                   (fun p => decide (p.userId = uid))).map Prediction.amount).sum))
    ∧ (let out := cancelRound db roundId reason
       out.2.isOk = true
       ∧ (findUser out.1 uid).map User.wins = some u.wins
       ∧ (findUser out.1 uid).map User.streak = some u.streak
       ∧ (findUser out.1 uid).map User.virtualBalance
           = some (u.virtualBalance
               + (((predictionsOf db roundId).filter
                     (fun p => decide (p.userId = uid))).map Prediction.amount).sum)) := by
  constructor
  · dsimp only
    unfold resolveUpDownRound
    rw [if_pos hfp,
      findUser_foldl_credit refundPredictionStep refundStep_user _ db uid, hu]
    simp
  · dsimp only
    simp only [cancelRound, hround]
    rw [if_neg hcancellable]
    refine ⟨rfl, ?_⟩
    rw [findUser_foldl_credit (cancelRefundStep roundId reason)
        (cancelStep_user roundId reason) _ _ uid,
      findUser_updateRound, hu]
    simp

/-- Witness for C10 at the cancellation scenario (one stake of 100). -/
theorem c10_refunds_preserve_wins_and_streak_witness :
    (let db' := resolveUpDownRound cancelScenarioDB
        { id := 1, mode := .UP_DOWN, status := .ACTIVE, startTime := 0
          endTime := 300000, startPrice := 1, endPrice := none
          sorobanRoundId := none, poolUp := 100, poolDown := 0, priceRanges := none } 1
     (findUser db' 1).map User.wins = some 0
     ∧ (findUser db' 1).map User.streak = some 0
     ∧ (findUser db' 1).map User.virtualBalance
         = some (900
             + (((predictionsOf cancelScenarioDB 1).filter
                   (fun p => decide (p.userId = 1))).map Prediction.amount).sum))
    ∧ (let out := cancelRound cancelScenarioDB 1 "maintenance"
       out.2.isOk = true
       ∧ (findUser out.1 1).map User.wins = some 0
       ∧ (findUser out.1 1).map User.streak = some 0
       ∧ (findUser out.1 1).map User.virtualBalance
           = some (900
               + (((predictionsOf cancelScenarioDB 1).filter
                     (fun p => decide (p.userId = 1))).map Prediction.amount).sum)) :=
  c10_refunds_preserve_wins_and_streak cancelScenarioDB 1 "maintenance" 1
    { id := 1, mode := .UP_DOWN, status := .ACTIVE, startTime := 0
      endTime := 300000, startPrice := 1, endPrice := none
      sorobanRoundId := none, poolUp := 100, poolDown := 0, priceRanges := none }
    1 { id := 1, walletAddress := "GA", virtualBalance := 900, wins := 0, streak := 0 }
    rfl rfl (by decide) rfl

/-! ## Submit path computations -/

/-- Under the success guards, an UP_DOWN submit with a successful (or
skipped) remote leg reduces to the atomic debit/pool/ledger write plus the
created row. -/
theorem submitPrediction_ok_eq (db : DB) (userId roundId : Nat) (amount : ℚ)
    (s : PredictionSide) (nowMs : ℚ) (newPid : Nat) (enabled hasKey : Bool)
    (tx : String) (round : Round) (user : User)
    (hround : findRound db roundId = some round)
    (hactive : round.status = .ACTIVE)
    (hmode : round.mode = .UP_DOWN)
    (htime : ¬ round.endTime < nowMs)
    (hnodup : db.predictions.find?
        (fun p => decide (p.roundId = roundId ∧ p.userId = userId)) = none)
    (huser : findUser db userId = some user)
    (hbal : ¬ user.virtualBalance < amount)
    (hwallet : ¬ user.walletAddress = "") :
    submitPrediction db userId roundId amount (some s) none nowMs newPid
        enabled hasKey (.ok tx)
      = (submitSettleWrites { db with predictions := db.predictions ++
            [{ id := newPid, roundId := roundId, userId := userId, amount := amount
               side := some s, priceRange := none, won := none, payout := none }] }
            userId roundId amount s,
         .ok { id := newPid, roundId := roundId, userId := userId, amount := amount
               side := some s, priceRange := none, won := none, payout := none }) := by
  have hnd : ∀ x ∈ db.predictions, x.roundId = roundId → ¬ x.userId = userId := by
    intro x hx hr hu2
    have h := List.find?_eq_none.mp hnodup x hx
    simp [hr, hu2] at h
  by_cases hek : (enabled && hasKey) = true <;>
    · simp [submitPrediction, hround, hactive, hmode, huser, htime, hbal, hwallet, hek]
      exact hnd

/-- Under the same guards, a failing remote bet placement deletes the row
and re-throws: the call returns the untouched pre-state with the original
`BlockchainError`. -/
theorem submitPrediction_err_eq (db : DB) (userId roundId : Nat) (amount : ℚ)
    (s : PredictionSide) (nowMs : ℚ) (newPid : Nat) (e : BlockchainError)
    (round : Round) (user : User)
    (hround : findRound db roundId = some round)
    (hactive : round.status = .ACTIVE)
    (hmode : round.mode = .UP_DOWN)
    (htime : ¬ round.endTime < nowMs)
    (hnodup : db.predictions.find?
        (fun p => decide (p.roundId = roundId ∧ p.userId = userId)) = none)
    (huser : findUser db userId = some user)
    (hbal : ¬ user.virtualBalance < amount)
    (hwallet : ¬ user.walletAddress = "")
    (hfresh : ∀ p ∈ db.predictions, p.id ≠ newPid) :
    submitPrediction db userId roundId amount (some s) none nowMs newPid
        true true (.error e)
      = (db, .error (.blockchain e)) := by
  have hnd : ∀ x ∈ db.predictions, x.roundId = roundId → ¬ x.userId = userId := by
    intro x hx hr hu2
    have h := List.find?_eq_none.mp hnodup x hx
    simp [hr, hu2] at h
  have hdel := deletePrediction_append_fresh db
    { id := newPid, roundId := roundId, userId := userId, amount := amount
      side := some s, priceRange := none, won := none, payout := none } hfresh
  simp [submitPrediction, hround, hactive, hmode, huser, htime, hbal, hwallet, hdel]
  exact hnd

/-! ## Claim C3 -/

/-- Claim C3: a successful UP_DOWN submit returns the created prediction
row, and the post-state balance of the submitting user is exactly the old
balance minus the stake (the debit, the pool increment and the ledger entry
are one `prisma.$transaction`, modelled as a single step together with the
row creation); and when the remote bet placement fails, the whole call
returns the original `BlockchainError` with the post-state literally equal
to the pre-state — the just-created prediction row is deleted and the
balance was never debited, as if submit never ran. -/
theorem c3_submit_debit_and_rollback (db : DB) (userId roundId : Nat) (amount : ℚ)
    (s : PredictionSide) (nowMs : ℚ) (newPid : Nat) (enabled hasKey : Bool)
    (tx : String) (e : BlockchainError) (round : Round) (user : User)
    (hround : findRound db roundId = some round)
    (hactive : round.status = .ACTIVE)
    (hmode : round.mode = .UP_DOWN)
    (htime : ¬ round.endTime < nowMs)
    (hnodup : db.predictions.find?
        (fun p => decide (p.roundId = roundId ∧ p.userId = userId)) = none)
    (huser : findUser db userId = some user)
    (hbal : ¬ user.virtualBalance < amount)
    (hwallet : ¬ user.walletAddress = "")
    (hfresh : ∀ p ∈ db.predictions, p.id ≠ newPid) :
    (let out := submitPrediction db userId roundId amount (some s) none nowMs newPid
        enabled hasKey (.ok tx)
     out.2 = .ok { id := newPid, roundId := roundId, userId := userId, amount := amount
                   side := some s, priceRange := none, won := none, payout := none }
     ∧ (findUser out.1 userId).map User.virtualBalance
         = some (user.virtualBalance - amount)
     ∧ findPrediction out.1 newPid
         = some { id := newPid, roundId := roundId, userId := userId, amount := amount
                  side := some s, priceRange := none, won := none, payout := none })
    ∧ submitPrediction db userId roundId amount (some s) none nowMs newPid
        true true (.error e)
      = (db, .error (.blockchain e)) := by
  refine ⟨?_, submitPrediction_err_eq db userId roundId amount s nowMs newPid e round user
    hround hactive hmode htime hnodup huser hbal hwallet hfresh⟩
  dsimp only
  rw [submitPrediction_ok_eq db userId roundId amount s nowMs newPid enabled hasKey tx
    round user hround hactive hmode htime hnodup huser hbal hwallet]
  refine ⟨rfl, ?_, ?_⟩
  · rw [findUser_submitSettleWrites, if_pos rfl]
    have : findUser { db with predictions := db.predictions ++
        [{ id := newPid, roundId := roundId, userId := userId, amount := amount
           side := some s, priceRange := none, won := none, payout := none }] } userId
        = findUser db userId := rfl
    rw [this, huser]
    rfl
  · have hpreds : findPrediction (submitSettleWrites { db with predictions := db.predictions ++
        [{ id := newPid, roundId := roundId, userId := userId, amount := amount
           side := some s, priceRange := none, won := none, payout := none }] }
        userId roundId amount s) newPid
      = findPrediction { db with predictions := db.predictions ++
        [{ id := newPid, roundId := roundId, userId := userId, amount := amount
           side := some s, priceRange := none, won := none, payout := none }] } newPid := by
      unfold findPrediction
      rw [submitSettleWrites_predictions]
    rw [hpreds]
    unfold findPrediction
    exact find?_append_right _ db.predictions _
      (fun p hp => by simp [hfresh p hp]) (by simp)

/-- Witness database for submit: one user with balance 1000 and one ACTIVE
UP_DOWN round with empty pools. -/
def submitWitnessDB : DB :=
  { users := [{ id := 1, walletAddress := "GA", virtualBalance := 1000, wins := 0, streak := 0 }]
    rounds := [{ id := 1, mode := .UP_DOWN, status := .ACTIVE, startTime := 0
                 endTime := 300000, startPrice := 1, endPrice := none
                 sorobanRoundId := none, poolUp := 0, poolDown := 0, priceRanges := none }]
    predictions := [], transactions := [] }

/-- Witness for C3: submitting 100 UP with a successful remote leg debits
the balance to 900; with a failing remote leg the state is unchanged. -/
theorem c3_submit_debit_and_rollback_witness :
    (let out := submitPrediction submitWitnessDB 1 1 100 (some .UP) none 0 7
        true true (.ok "tx")
     out.2 = .ok { id := 7, roundId := 1, userId := 1, amount := 100
                   side := some .UP, priceRange := none, won := none, payout := none }
     ∧ (findUser out.1 1).map User.virtualBalance = some (1000 - 100)
     ∧ findPrediction out.1 7
         = some { id := 7, roundId := 1, userId := 1, amount := 100
                  side := some .UP, priceRange := none, won := none, payout := none })
    ∧ submitPrediction submitWitnessDB 1 1 100 (some .UP) none 0 7
        true true (.error sampleTransientError)
      = (submitWitnessDB, .error (.blockchain sampleTransientError)) :=
  c3_submit_debit_and_rollback submitWitnessDB 1 1 100 .UP 0 7 true true "tx"
    sampleTransientError
    { id := 1, mode := .UP_DOWN, status := .ACTIVE, startTime := 0
      endTime := 300000, startPrice := 1, endPrice := none
      sorobanRoundId := none, poolUp := 0, poolDown := 0, priceRanges := none }
    { id := 1, walletAddress := "GA", virtualBalance := 1000, wins := 0, streak := 0 }
    rfl rfl rfl (by norm_num) rfl rfl (by norm_num) (by decide) (by decide)

/-! ## Claim C4 -/

/-- Claim C4: when the remote `createRound` leg fails during `startRound`
(Soroban enabled, remote outcome an error), the just-persisted round is
rolled back to CANCELLED — it is neither left PENDING nor ever made
ACTIVE — no other row changes, and the very `BlockchainError` produced by
the gateway is re-thrown unchanged to the caller; `startRound` consults the
remote outcome exactly once, with no retry at this layer. -/
theorem c4_create_rollback (db : DB) (startPrice durationMinutes nowMs : ℚ) (newId : Nat)
    (e : BlockchainError)
    (hp : 0 < startPrice) (hd0 : 0 < durationMinutes) (hd1 : durationMinutes ≤ 1440)
    (hnoactive : db.rounds.find? (fun r => decide (r.status = .ACTIVE)) = none)
    (hfresh : ∀ r ∈ db.rounds, r.id ≠ newId) :
    startRound db .UP_DOWN startPrice durationMinutes nowMs newId true (.error e)
      = ({ db with rounds := db.rounds ++
          [{ id := newId, mode := .UP_DOWN, status := .CANCELLED
             startTime := nowMs, endTime := nowMs + durationMinutes * 60 * 1000
             startPrice := startPrice, endPrice := none, sorobanRoundId := none
             poolUp := 0, poolDown := 0, priceRanges := none }] },
         .error (.blockchain e)) := by
  have h1 : ¬ startPrice ≤ 0 := not_le.mpr hp
  have h2 : ¬ (durationMinutes ≤ 0 ∨ 1440 < durationMinutes) := by
    push_neg
    exact ⟨hd0, hd1⟩
  have hmap := map_update_append_fresh db.rounds
    { id := newId, mode := .UP_DOWN, status := .PENDING
      startTime := nowMs, endTime := nowMs + durationMinutes * 60 * 1000
      startPrice := startPrice, endPrice := none, sorobanRoundId := none
      poolUp := 0, poolDown := 0, priceRanges := none }
    (fun r => { r with status := .CANCELLED }) newId rfl hfresh
  simp [startRound, h1, h2, hnoactive, updateRound, hmap]

/-- Witness for C4 on an empty database. -/
theorem c4_create_rollback_witness :
    startRound { users := [], rounds := [], predictions := [], transactions := [] }
        .UP_DOWN 1 5 0 7 true (.error sampleTransientError)
      = ({ users := []
           rounds := [{ id := 7, mode := .UP_DOWN, status := .CANCELLED
                        startTime := 0, endTime := 0 + 5 * 60 * 1000
                        startPrice := 1, endPrice := none, sorobanRoundId := none
                        poolUp := 0, poolDown := 0, priceRanges := none }]
           predictions := [], transactions := [] },
         .error (.blockchain sampleTransientError)) :=
  c4_create_rollback { users := [], rounds := [], predictions := [], transactions := [] }
    1 5 0 7 sampleTransientError (by norm_num) (by norm_num) (by norm_num) rfl
    (by intro r hr; cases hr)

/-! ## Claim C2 (amended) -/

/-- The ACTIVE round `startRound` persists on success (with the remote tx
hash when the Soroban leg ran). -/
def startedRound (newId : Nat) (nowMs durationMinutes startPrice : ℚ)
    (srid : Option String) : Round :=
  { id := newId, mode := .UP_DOWN, status := .ACTIVE, startTime := nowMs
    endTime := nowMs + durationMinutes * 60 * 1000, startPrice := startPrice
    endPrice := none, sorobanRoundId := srid
    poolUp := 0, poolDown := 0, priceRanges := none }

/-- Claim C2 as amended: for valid inputs and a successful (or disabled)
remote leg, `startRound` is gated ONLY on ACTIVE rounds: if some round is
ACTIVE it fails with the ACTIVE_ROUND_EXISTS 409 conflict and changes
nothing; otherwise it succeeds — even if PENDING rounds exist — and
afterwards exactly one round is ACTIVE (the new one).  PENDING rounds do
not block a new round, so the enforced invariant is at most one ACTIVE
round, not at most one PENDING-or-ACTIVE round. -/
theorem c2_start_round_gates_on_active_only (db : DB)
    (startPrice durationMinutes nowMs : ℚ) (newId : Nat) (enabled : Bool) (tx : String)
    (hp : 0 < startPrice) (hd0 : 0 < durationMinutes) (hd1 : durationMinutes ≤ 1440)
    (hfresh : ∀ r ∈ db.rounds, r.id ≠ newId) :
    (let out := startRound db .UP_DOWN startPrice durationMinutes nowMs newId enabled (.ok tx)
     if (db.rounds.find? (fun r => decide (r.status = .ACTIVE))).isSome = true then
       out = (db, .error (.service { code := "ACTIVE_ROUND_EXISTS", statusCode := 409 }))
     else
       out.2.isOk = true
       ∧ (findRound out.1 newId).map Round.status = some .ACTIVE
       ∧ (out.1.rounds.filter (fun r => decide (r.status = .ACTIVE))).length = 1) := by
  have h1 : ¬ startPrice ≤ 0 := not_le.mpr hp
  have h2 : ¬ (durationMinutes ≤ 0 ∨ 1440 < durationMinutes) := by
    push_neg
    exact ⟨hd0, hd1⟩
  dsimp only
  by_cases hact : (db.rounds.find? (fun r => decide (r.status = .ACTIVE))).isSome = true
  · rw [if_pos hact]
    simp [startRound, h1, h2, hact]
  · rw [if_neg hact]
    have hnone : db.rounds.find? (fun r => decide (r.status = .ACTIVE)) = none :=
      Option.not_isSome_iff_eq_none.mp hact
    have hfilter : db.rounds.filter (fun r => decide (r.status = .ACTIVE)) = [] :=
      List.filter_eq_nil_iff.mpr (List.find?_eq_none.mp hnone)
    have hgoal : ∀ (srid : Option String),
        (findRound { db with rounds := db.rounds ++
            [startedRound newId nowMs durationMinutes startPrice srid] } newId).map
          Round.status = some .ACTIVE
        ∧ (({ db with rounds := db.rounds ++
            [startedRound newId nowMs durationMinutes startPrice srid] } : DB).rounds.filter
            (fun r => decide (r.status = .ACTIVE))).length = 1 := by
      intro srid
      constructor
      · unfold findRound
        rw [show ({ db with rounds := db.rounds ++
              [startedRound newId nowMs durationMinutes startPrice srid] } : DB).rounds
            = db.rounds ++ [startedRound newId nowMs durationMinutes startPrice srid]
          from rfl]
        rw [find?_append_right _ db.rounds _
          (fun r hr => by simp [hfresh r hr]) (by simp [startedRound])]
        rfl
      · rw [show ({ db with rounds := db.rounds ++
              [startedRound newId nowMs durationMinutes startPrice srid] } : DB).rounds
            = db.rounds ++ [startedRound newId nowMs durationMinutes startPrice srid]
          from rfl]
        rw [List.filter_append, hfilter]
        simp [startedRound]
    by_cases hen : enabled = true
    · have hmap := map_update_append_fresh db.rounds
        { id := newId, mode := .UP_DOWN, status := .PENDING
          startTime := nowMs, endTime := nowMs + durationMinutes * 60 * 1000
          startPrice := startPrice, endPrice := none, sorobanRoundId := none
          poolUp := 0, poolDown := 0, priceRanges := none }
        (fun r => { r with status := .ACTIVE, sorobanRoundId := some tx }) newId rfl hfresh
      have hout : startRound db .UP_DOWN startPrice durationMinutes nowMs newId enabled (.ok tx)
          = ({ db with rounds := db.rounds ++
                [startedRound newId nowMs durationMinutes startPrice (some tx)] },
             .ok (startedRound newId nowMs durationMinutes startPrice (some tx))) := by
        simp [startRound, h1, h2, hnone, hen, updateRound, hmap, startedRound]
      rw [hout]
      exact ⟨rfl, (hgoal (some tx)).1, (hgoal (some tx)).2⟩
    · have hmap := map_update_append_fresh db.rounds
        { id := newId, mode := .UP_DOWN, status := .PENDING
          startTime := nowMs, endTime := nowMs + durationMinutes * 60 * 1000
          startPrice := startPrice, endPrice := none, sorobanRoundId := none
          poolUp := 0, poolDown := 0, priceRanges := none }
        (fun r => { r with status := .ACTIVE, sorobanRoundId := none }) newId rfl hfresh
      have hout : startRound db .UP_DOWN startPrice durationMinutes nowMs newId enabled (.ok tx)
          = ({ db with rounds := db.rounds ++
                [startedRound newId nowMs durationMinutes startPrice none] },
             .ok (startedRound newId nowMs durationMinutes startPrice none)) := by
        simp [startRound, h1, h2, hnone, hen, updateRound, hmap, startedRound]
      rw [hout]
      exact ⟨rfl, (hgoal none).1, (hgoal none).2⟩

/-- Witness for the amended C2: on the PENDING-only database the new round
starts despite the PENDING round; with Soroban disabled and a fresh id. -/
theorem c2_start_round_gates_on_active_only_witness :
    (let out := startRound pendingOnlyDB .UP_DOWN 1 5 0 2 false (.ok "tx")
     if (pendingOnlyDB.rounds.find? (fun r => decide (r.status = .ACTIVE))).isSome = true then
       out = (pendingOnlyDB, .error (.service { code := "ACTIVE_ROUND_EXISTS", statusCode := 409 }))
     else
       out.2.isOk = true
       ∧ (findRound out.1 2).map Round.status = some .ACTIVE
       ∧ (out.1.rounds.filter (fun r => decide (r.status = .ACTIVE))).length = 1) :=
  c2_start_round_gates_on_active_only pendingOnlyDB 1 5 0 2 false "tx"
    (by norm_num) (by norm_num) (by norm_num) (by decide)

/-! ## Claim C8 (amended) -/

theorem sideStakeSum_submitSettleWrites (d : DB) (u r : Nat) (a : ℚ) (s : PredictionSide)
    (rid : Nat) (s2 : PredictionSide) :
    sideStakeSum (submitSettleWrites d u r a s) rid s2 = sideStakeSum d rid s2 := by
  unfold sideStakeSum
  rw [submitSettleWrites_predictions]

theorem findRound_eq_of_rounds_eq (d d2 : DB) (h : d.rounds = d2.rounds) (rid : Nat) :
    findRound d rid = findRound d2 rid := by
  unfold findRound
  rw [h]

/-- Claim C8 as amended: the per-side pool fields track the sum of ALL
prediction stakes on that side — a successful submit increments the chosen
side's pool by the stake, preserving `pool = sideStakeSum` on both sides —
but refunds do NOT: `cancelRound` refunds every prediction of the round
while leaving both pool fields and every prediction row exactly as they
were, so after a cancellation the pools still reflect the originally staked
amounts, not the non-refunded remainder. -/
theorem c8_pools_equal_total_stakes (db : DB) (userId roundId : Nat) (amount : ℚ)
    (s : PredictionSide) (nowMs : ℚ) (newPid : Nat) (tx reason : String)
    (round : Round) (user : User)
    (hround : findRound db roundId = some round)
    (hactive : round.status = .ACTIVE)
    (hmode : round.mode = .UP_DOWN)
    (htime : ¬ round.endTime < nowMs)
    (hnodup : db.predictions.find?
        (fun p => decide (p.roundId = roundId ∧ p.userId = userId)) = none)
    (huser : findUser db userId = some user)
    (hbal : ¬ user.virtualBalance < amount)
    (hwallet : ¬ user.walletAddress = "")
    (hinvUp : round.poolUp = sideStakeSum db roundId .UP)
    (hinvDown : round.poolDown = sideStakeSum db roundId .DOWN) :
    (let out := submitPrediction db userId roundId amount (some s) none nowMs newPid
        false false (.ok tx)
     (findRound out.1 roundId).map Round.poolUp = some (sideStakeSum out.1 roundId .UP)
     ∧ (findRound out.1 roundId).map Round.poolDown = some (sideStakeSum out.1 roundId .DOWN))
    ∧ (let out := cancelRound db roundId reason
       out.2.isOk = true
       ∧ out.1.predictions = db.predictions
       ∧ (findRound out.1 roundId).map Round.poolUp = some round.poolUp
       ∧ (findRound out.1 roundId).map Round.poolDown = some round.poolDown) := by
  constructor
  · dsimp only
    rw [submitPrediction_ok_eq db userId roundId amount s nowMs newPid false false tx
      round user hround hactive hmode htime hnodup huser hbal hwallet]
    rw [show (submitSettleWrites { db with predictions := db.predictions ++
          [{ id := newPid, roundId := roundId, userId := userId, amount := amount
             side := some s, priceRange := none, won := none, payout := none }] }
          userId roundId amount s,
        (.ok { id := newPid, roundId := roundId, userId := userId, amount := amount
               side := some s, priceRange := none, won := none, payout := none }
          : Except AppError Prediction)).1
      = submitSettleWrites { db with predictions := db.predictions ++
          [{ id := newPid, roundId := roundId, userId := userId, amount := amount
             side := some s, priceRange := none, won := none, payout := none }] }
          userId roundId amount s from rfl]
    rw [findRound_submitSettleWrites, if_pos rfl]
    rw [show findRound { db with predictions := db.predictions ++
          [{ id := newPid, roundId := roundId, userId := userId, amount := amount
             side := some s, priceRange := none, won := none, payout := none }] } roundId
        = findRound db roundId from rfl, hround]
    rw [sideStakeSum_submitSettleWrites, sideStakeSum_submitSettleWrites,
      sideStakeSum_append, sideStakeSum_append]
    cases s <;>
      simp [hinvUp, hinvDown, add_comm]
  · dsimp only
    simp only [cancelRound, hround]
    rw [if_neg (by simp [hactive])]
    refine ⟨rfl, ?_, ?_, ?_⟩
    · rw [show ((predictionsOf db roundId).foldl (cancelRefundStep roundId reason)
            (updateRound db roundId (fun r => { r with status := .CANCELLED })),
          (.ok () : Except ServiceError Unit)).1.predictions
          = ((predictionsOf db roundId).foldl (cancelRefundStep roundId reason)
            (updateRound db roundId (fun r => { r with status := .CANCELLED }))).predictions
        from rfl]
      rw [foldl_preserves DB.predictions (cancelRefundStep roundId reason)
        (cancelStep_predictions roundId reason)]
      rfl
    all_goals
      rw [show ((predictionsOf db roundId).foldl (cancelRefundStep roundId reason)
            (updateRound db roundId (fun r => { r with status := .CANCELLED })),
          (.ok () : Except ServiceError Unit)).1
          = ((predictionsOf db roundId).foldl (cancelRefundStep roundId reason)
            (updateRound db roundId (fun r => { r with status := .CANCELLED })))
        from rfl]
      rw [findRound_eq_of_rounds_eq _
          (updateRound db roundId (fun r => { r with status := .CANCELLED }))
          (foldl_preserves DB.rounds (cancelRefundStep roundId reason)
            (cancelStep_rounds roundId reason) _ _)]
      simp [findRound_updateRound, hround]

/-- Witness for the amended C8: submitting 100 UP into the empty-pool round
keeps both pools equal to the side sums; cancelling the staked round keeps
`poolUp` at 100 and the prediction rows intact. -/
theorem c8_pools_equal_total_stakes_witness :
    (let out := submitPrediction submitWitnessDB 1 1 100 (some .UP) none 0 7
        false false (.ok "tx")
     (findRound out.1 1).map Round.poolUp = some (sideStakeSum out.1 1 .UP)
     ∧ (findRound out.1 1).map Round.poolDown = some (sideStakeSum out.1 1 .DOWN))
    ∧ (let out := cancelRound submitWitnessDB 1 "maintenance"
       out.2.isOk = true
       ∧ out.1.predictions = submitWitnessDB.predictions
       ∧ (findRound out.1 1).map Round.poolUp = some 0
       ∧ (findRound out.1 1).map Round.poolDown = some 0) :=
  c8_pools_equal_total_stakes submitWitnessDB 1 1 100 .UP 0 7 "tx" "maintenance"
    { id := 1, mode := .UP_DOWN, status := .ACTIVE, startTime := 0
      endTime := 300000, startPrice := 1, endPrice := none
      sorobanRoundId := none, poolUp := 0, poolDown := 0, priceRanges := none }
    { id := 1, walletAddress := "GA", virtualBalance := 1000, wins := 0, streak := 0 }
    rfl rfl rfl (by norm_num) rfl rfl (by norm_num) (by decide) rfl rfl

end Xelma